import Mathlib

/-!
Verification development for the `dino-dunia-kuno` data-model repository.

The repository's single source file, `src/app/models.py`, declares a relational
schema (SQLModel entity classes with field constraints: `unique`, `ge`, `le`,
`gt`, `max_length`, `foreign_key`, defaults) and transfer shapes, with no
executable CRUD code.  The shallow embedding below translates those
declarations into Lean structures, and models the uniform
Create/Update/Read storage operations — which the repository's code does not
implement — from the specification's component design, enforcing exactly the
field constraints declared in the source.
-/

namespace DinoDuniaKuno

/-! ## Enumerations (src/app/models.py, lines 8-49) -/

/-- `GradeLevel(str, Enum)` with members grade_4, grade_5, grade_6. -/
inductive GradeLevel where
  | grade_4
  | grade_5
  | grade_6
deriving DecidableEq

/-- `UserRole(str, Enum)` with members teacher, student, admin. -/
inductive UserRole where
  | teacher
  | student
  | admin
deriving DecidableEq

/-- `DifficultyLevel(str, Enum)` with members easy, medium, hard. -/
inductive DifficultyLevel where
  | easy
  | medium
  | hard
deriving DecidableEq

/-- `ContentType(str, Enum)` with six members. -/
inductive ContentType where
  | presentation
  | text
  | image
  | video
  | audio_
  | document
deriving DecidableEq

/-- `HistoricalPeriod(str, Enum)` with seven members (an enum, not a table,
in the source file). -/
inductive HistoricalPeriod where
  | prehistoric
  | hindu_buddhist
  | islamic_kingdoms
  | colonial_dutch
  | colonial_japanese
  | independence
  | post_independence
deriving DecidableEq

/-- `RewardType(str, Enum)` with members points, badge, power_up, achievement. -/
inductive RewardType where
  | points
  | badge
  | power_up
  | achievement
deriving DecidableEq

/-- The closed set of string tags of `UserRole` (lines 14-17). -/
def UserRole.tags : List String := ["teacher", "student", "admin"]

/-- Parse a string tag into `UserRole`; `none` for a tag outside the closed set. -/
def UserRole.ofString : String → Option UserRole
  | "teacher" => some .teacher
  | "student" => some .student
  | "admin" => some .admin
  | _ => none

/-- The closed set of string tags of `GradeLevel` (lines 8-11). -/
def GradeLevel.tags : List String := ["grade_4", "grade_5", "grade_6"]

/-- Parse a string tag into `GradeLevel`. -/
def GradeLevel.ofString : String → Option GradeLevel
  | "grade_4" => some .grade_4
  | "grade_5" => some .grade_5
  | "grade_6" => some .grade_6
  | _ => none

/-- The closed set of string tags of `DifficultyLevel` (lines 20-23). -/
def DifficultyLevel.tags : List String := ["easy", "medium", "hard"]

/-- Parse a string tag into `DifficultyLevel`. -/
def DifficultyLevel.ofString : String → Option DifficultyLevel
  | "easy" => some .easy
  | "medium" => some .medium
  | "hard" => some .hard
  | _ => none

/-- The closed set of string tags of `ContentType` (lines 26-32). -/
def ContentType.tags : List String :=
  ["presentation", "text", "image", "video", "audio", "document"]

/-- Parse a string tag into `ContentType`. -/
def ContentType.ofString : String → Option ContentType
  | "presentation" => some .presentation
  | "text" => some .text
  | "image" => some .image
  | "video" => some .video
  | "audio" => some .audio_
  | "document" => some .document
  | _ => none

/-- The closed set of string tags of `RewardType` (lines 45-49). -/
def RewardType.tags : List String := ["points", "badge", "power_up", "achievement"]

/-- Parse a string tag into `RewardType`. -/
def RewardType.ofString : String → Option RewardType
  | "points" => some .points
  | "badge" => some .badge
  | "power_up" => some .power_up
  | "achievement" => some .achievement
  | _ => none

/-- The closed set of string tags of `HistoricalPeriod` (lines 35-42). -/
def HistoricalPeriod.tags : List String :=
  ["prehistoric", "hindu_buddhist", "islamic_kingdoms", "colonial_dutch",
   "colonial_japanese", "independence", "post_independence"]

/-! ## Opaque JSON "bag" values

`Dict[str, Any]` / `List[Dict[str, Any]]` columns carry no internal schema in
the source; they are modelled as opaque association lists of string key/value
pairs, which is enough for the claims (they are never validated beyond
well-formedness). -/

/-- Opaque model of a `Dict[str, Any]` JSON column. -/
def JsonDict : Type := List (String × String)

instance : DecidableEq JsonDict := by
  unfold JsonDict
  infer_instance

/-! ## Persisted entity shapes (the table classes the claims are about)

Timestamps (`datetime`) are modelled as `Nat` instants; Python `int` columns
as `Int`; `Optional[T]` as `Option T`.  A stored row always has its primary
key assigned, so `id` is `Nat` rather than `Option Nat`. -/

/-- `User` table (lines 53-71): username/email unique, role defaults to
student, is_active defaults true, created_at/updated_at timestamps. -/
structure User where
  id : Nat
  username : String
  email : String
  full_name : String
  role : UserRole
  grade_level : Option GradeLevel
  school_name : Option String
  is_active : Bool
  created_at : Nat
  updated_at : Nat
deriving DecidableEq

/-- `QuizLevel` table (lines 149-165): level_number ge=1, reward_points
default 100 ge=0, difficulty default easy, is_active default true. -/
structure QuizLevel where
  id : Nat
  level_number : Int
  title : String
  historical_period : HistoricalPeriod
  description : String
  unlock_requirements : JsonDict
  reward_points : Int
  difficulty_level : DifficultyLevel
  is_active : Bool
  created_at : Nat
deriving DecidableEq

/-- `QuizQuestion` table (lines 168-184): level_id foreign key to
quiz_levels.id; question_type is a plain string of max length 50 (the comment
lists multiple_choice, true_false, fill_blank but no enum is declared);
points default 10 with ge=1. -/
structure QuizQuestion where
  id : Nat
  level_id : Nat
  question_text : String
  question_type : String
  options : List String
  correct_answer : String
  explanation : String
  difficulty : DifficultyLevel
  points : Int
  media_url : Option String
  created_at : Nat
deriving DecidableEq

/-- `QuizSession` table (lines 187-203): student_id and level_id foreign
keys, score default 0 ge=0, total_questions ge=1, correct_answers default 0
ge=0; note it has start_time/end_time, not created_at/updated_at. -/
structure QuizSession where
  id : Nat
  student_id : Nat
  level_id : Nat
  start_time : Nat
  end_time : Option Nat
  score : Int
  total_questions : Int
  correct_answers : Int
  is_completed : Bool
  answers : List JsonDict
deriving DecidableEq

/-- `StudentReward` table (lines 206-220): student_id foreign key,
points_value default 0 ge=0; has earned_at, not created_at. -/
structure StudentReward where
  id : Nat
  student_id : Nat
  reward_type : RewardType
  title : String
  description : String
  points_value : Int
  icon_url : Option String
  earned_at : Nat
  source_activity : String
deriving DecidableEq

/-- `VocabularyTerm` table (lines 224-239): term unique, difficulty default
medium, created_at/updated_at timestamps. -/
structure VocabularyTerm where
  id : Nat
  term : String
  definition : String
  historical_period : HistoricalPeriod
  etymology : Option String
  pronunciation : Option String
  audio_url : Option String
  image_url : Option String
  example_usage : Option String
  difficulty_level : DifficultyLevel
  tags : List String
  created_at : Nat
  updated_at : Nat
deriving DecidableEq

/-- `VocabularyConnection` table (lines 242-251): source_term_id and
target_term_id foreign keys to vocabulary_terms.id, strength default 1 with
ge=1 and le=5. -/
structure VocabularyConnection where
  id : Nat
  source_term_id : Nat
  target_term_id : Nat
  connection_type : String
  description : Option String
  strength : Int
  created_at : Nat
deriving DecidableEq

/-- `StudentProgress` table (lines 392-407): student_id foreign key,
progress_percentage default 0 with ge=0 le=100, score optional ge=0,
attempts_count default 1 ge=1; has last_accessed, not created_at. -/
structure StudentProgress where
  id : Nat
  student_id : Nat
  activity_type : String
  activity_id : Int
  progress_percentage : Int
  completion_time : Option Nat
  score : Option Int
  attempts_count : Int
  last_accessed : Nat
  notes : Option String
deriving DecidableEq

/-! ## Error taxonomy (spec section 7) -/

/-- Errors surfaced at the validation boundary of the storage layer. -/
inductive DbError where
  | ValidationError (field : String)
  | UniqueConstraintError (field : String)
  | ForeignKeyError (field : String)
  | NotFoundError
deriving DecidableEq

/-! ## The store

Modelled from the spec: the external persistence layer holds one table per
entity; the claims need the eight tables below.  Identifier generation and
the wall clock are made explicit: a fresh id is one past the largest id in
the table, and every operation receives the current instant `now`. -/

/-- The storage state: one list of rows per modelled table, newest first. -/
structure DB where
  users : List User
  quiz_levels : List QuizLevel
  quiz_questions : List QuizQuestion
  quiz_sessions : List QuizSession
  student_rewards : List StudentReward
  vocabulary_terms : List VocabularyTerm
  vocabulary_connections : List VocabularyConnection
  student_progress : List StudentProgress
deriving DecidableEq

/-- The empty store. -/
def DB.empty : DB := ⟨[], [], [], [], [], [], [], []⟩

/-- A freshly assigned identifier: one past the largest identifier in use. -/
def freshId (ids : List Nat) : Nat := ids.foldr max 0 + 1

theorem le_foldr_max (ids : List Nat) (x : Nat) (hx : x ∈ ids) :
    x ≤ ids.foldr max 0 := by
  induction ids with
  | nil => cases hx
  | cons a l ih =>
    rcases List.mem_cons.mp hx with h | h
    · subst h
      exact le_max_left _ _
    · exact le_trans (ih h) (le_max_right _ _)

/-- A fresh identifier is distinct from every identifier in use. -/
theorem freshId_not_mem (ids : List Nat) : freshId ids ∉ ids := by
  intro hmem
  have := le_foldr_max ids _ hmem
  simp only [freshId] at this
  omega

/-! ## Field-constraint checks

Each check is the direct translation of a `Field(...)` constraint in the
source file. -/

/-- `max_length=n` check on a string column. -/
def lenLe (s : String) (n : Nat) : Bool := decide (s.length ≤ n)

/-- `max_length=n` check on an `Optional[str]` column (absent values pass). -/
def optLenLe : Option String → Nat → Bool
  | none, _ => true
  | some s, n => lenLe s n

/-- `ge=1, le=5` on `VocabularyConnection.strength` (line 250). -/
def strengthOk (s : Int) : Bool := decide (1 ≤ s) && decide (s ≤ 5)

/-- `ge=0, le=100` on `StudentProgress.progress_percentage` (line 399). -/
def pctOk (x : Int) : Bool := decide (0 ≤ x) && decide (x ≤ 100)

/-- `ge=0` on points/score columns (e.g. lines 158, 195, 214, 401). -/
def nonnegOk (x : Int) : Bool := decide (0 ≤ x)

/-- `ge=1` on `QuizQuestion.points` (line 179). -/
def pointsOk (x : Int) : Bool := decide (1 ≤ x)

/-- `ge=0` on an `Optional[int]` column (`StudentProgress.score`,
line 401); an absent value passes. -/
def optScoreOk : Option Int → Bool
  | none => true
  | some s => nonnegOk s

/-- Parse an optional enum tag; a present tag outside the closed set fails
with `ValidationError` on the named field. -/
def parseOptTag {α : Type} (fname : String) (f : String → Option α) :
    Option String → Except DbError (Option α)
  | none => .ok none
  | some t =>
    match f t with
    | none => .error (.ValidationError fname)
    | some a => .ok (some a)

/-! ## Transfer shapes -/

/-- Modelled from the spec: the create-boundary input for `User`, mirroring
the `UserCreate` transfer shape (lines 424-430) with enum-typed fields
arriving as string tags (spec section 6: enums are closed string tag sets at
the interface), so that out-of-set tags can be rejected. -/
structure UserCreateRequest where
  username : String
  email : String
  full_name : String
  role : String
  grade_level : Option String
  school_name : Option String
deriving DecidableEq

/-- `UserUpdate` transfer shape (lines 433-437): only full_name,
grade_level, school_name and is_active may be supplied. -/
structure UserUpdate where
  full_name : Option String
  grade_level : Option GradeLevel
  school_name : Option String
  is_active : Option Bool
deriving DecidableEq

/-- `QuizSessionCreate` transfer shape (lines 440-443). -/
structure QuizSessionCreate where
  student_id : Nat
  level_id : Nat
  total_questions : Int
deriving DecidableEq

/-- `VocabularyTermCreate` transfer shape (lines 453-460). -/
structure VocabularyTermCreate where
  term : String
  definition : String
  historical_period : HistoricalPeriod
  pronunciation : Option String
  example_usage : Option String
  difficulty_level : DifficultyLevel
  tags : List String
deriving DecidableEq

/-- Modelled from the spec: create payload for `QuizLevel` (no transfer
shape exists in the source; fields are the caller-suppliable columns of
lines 149-161). -/
structure QuizLevelCreate where
  level_number : Int
  title : String
  historical_period : HistoricalPeriod
  description : String
  unlock_requirements : JsonDict
  reward_points : Int
  difficulty_level : DifficultyLevel
  is_active : Bool
deriving DecidableEq

/-- Modelled from the spec: create payload for `QuizQuestion` (columns of
lines 168-181 minus id/created_at). -/
structure QuizQuestionCreate where
  level_id : Nat
  question_text : String
  question_type : String
  options : List String
  correct_answer : String
  explanation : String
  difficulty : DifficultyLevel
  points : Int
  media_url : Option String
deriving DecidableEq

/-- Modelled from the spec: create payload for `StudentReward` (columns of
lines 206-217 minus id/earned_at). -/
structure StudentRewardCreate where
  student_id : Nat
  reward_type : RewardType
  title : String
  description : String
  points_value : Int
  icon_url : Option String
  source_activity : String
deriving DecidableEq

/-- Modelled from the spec: create payload for `VocabularyConnection`
(columns of lines 242-251 minus id/created_at). -/
structure VocabularyConnectionCreate where
  source_term_id : Nat
  target_term_id : Nat
  connection_type : String
  description : Option String
  strength : Int
deriving DecidableEq

/-- Modelled from the spec: create payload for `StudentProgress` (columns of
lines 392-404 minus id/last_accessed). -/
structure StudentProgressCreate where
  student_id : Nat
  activity_type : String
  activity_id : Int
  progress_percentage : Int
  completion_time : Option Nat
  score : Option Int
  attempts_count : Int
  notes : Option String
deriving DecidableEq

/-! ## Create operations

Modelled from the spec (section 4.1): `Create(fields)` validates field
constraints, then uniqueness, then foreign keys, in that order; on success it
returns the new record with a generated identifier and creation-time
timestamps, and on failure the store is returned unchanged together with the
error.  The constraints enforced are exactly those declared in
`src/app/models.py`. -/

/-- The `User` row built by a successful create: server fields are the fresh
id, `is_active := true` (column default, line 63) and both timestamps set to
`now` (lines 64-65). -/
def mkUser (db : DB) (p : UserCreateRequest) (role : UserRole)
    (gl : Option GradeLevel) (now : Nat) : User :=
  { id := freshId (db.users.map (·.id))
    username := p.username
    email := p.email
    full_name := p.full_name
    role := role
    grade_level := gl
    school_name := p.school_name
    is_active := true
    created_at := now
    updated_at := now }

/-- Create a `User`: max-length checks (lines 57-62), closed-set checks on
the role and grade_level tags (lines 14-17, 8-11), uniqueness of username
and email (lines 57-58). -/
def createUser (db : DB) (p : UserCreateRequest) (now : Nat) :
    DB × Except DbError User :=
  if lenLe p.username 100 = false then (db, .error (.ValidationError "username"))
  else if lenLe p.email 255 = false then (db, .error (.ValidationError "email"))
  else if lenLe p.full_name 200 = false then (db, .error (.ValidationError "full_name"))
  else if optLenLe p.school_name 200 = false then (db, .error (.ValidationError "school_name"))
  else
    match UserRole.ofString p.role with
    | none => (db, .error (.ValidationError "role"))
    | some role =>
      match parseOptTag "grade_level" GradeLevel.ofString p.grade_level with
      | .error e => (db, .error e)
      | .ok gl =>
        if ∃ u ∈ db.users, u.username = p.username then
          (db, .error (.UniqueConstraintError "username"))
        else if ∃ u ∈ db.users, u.email = p.email then
          (db, .error (.UniqueConstraintError "email"))
        else
          let u := mkUser db p role gl now
          ({ db with users := u :: db.users }, .ok u)

/-- The `VocabularyTerm` row built by a successful create: columns absent
from the transfer shape keep their column defaults (`none`), timestamps set
to `now`. -/
def mkVocabularyTerm (db : DB) (p : VocabularyTermCreate) (now : Nat) :
    VocabularyTerm :=
  { id := freshId (db.vocabulary_terms.map (·.id))
    term := p.term
    definition := p.definition
    historical_period := p.historical_period
    etymology := none
    pronunciation := p.pronunciation
    audio_url := none
    image_url := none
    example_usage := p.example_usage
    difficulty_level := p.difficulty_level
    tags := p.tags
    created_at := now
    updated_at := now }

/-- Create a `VocabularyTerm`: max-length checks (lines 228-235) and
uniqueness of `term` (line 228). -/
def createVocabularyTerm (db : DB) (p : VocabularyTermCreate) (now : Nat) :
    DB × Except DbError VocabularyTerm :=
  if lenLe p.term 200 = false then (db, .error (.ValidationError "term"))
  else if lenLe p.definition 1000 = false then (db, .error (.ValidationError "definition"))
  else if optLenLe p.pronunciation 200 = false then (db, .error (.ValidationError "pronunciation"))
  else if optLenLe p.example_usage 500 = false then (db, .error (.ValidationError "example_usage"))
  else if ∃ t ∈ db.vocabulary_terms, t.term = p.term then
    (db, .error (.UniqueConstraintError "term"))
  else
    let t := mkVocabularyTerm db p now
    ({ db with vocabulary_terms := t :: db.vocabulary_terms }, .ok t)

/-- The `QuizLevel` row built by a successful create. -/
def mkQuizLevel (db : DB) (p : QuizLevelCreate) (now : Nat) : QuizLevel :=
  { id := freshId (db.quiz_levels.map (·.id))
    level_number := p.level_number
    title := p.title
    historical_period := p.historical_period
    description := p.description
    unlock_requirements := p.unlock_requirements
    reward_points := p.reward_points
    difficulty_level := p.difficulty_level
    is_active := p.is_active
    created_at := now }

/-- Create a `QuizLevel`: `level_number ge=1` (line 153), max-length checks,
`reward_points ge=0` (line 158). -/
def createQuizLevel (db : DB) (p : QuizLevelCreate) (now : Nat) :
    DB × Except DbError QuizLevel :=
  if decide (1 ≤ p.level_number) = false then (db, .error (.ValidationError "level_number"))
  else if lenLe p.title 200 = false then (db, .error (.ValidationError "title"))
  else if lenLe p.description 500 = false then (db, .error (.ValidationError "description"))
  else if nonnegOk p.reward_points = false then (db, .error (.ValidationError "reward_points"))
  else
    let l := mkQuizLevel db p now
    ({ db with quiz_levels := l :: db.quiz_levels }, .ok l)

/-- The `QuizQuestion` row built by a successful create. -/
def mkQuizQuestion (db : DB) (p : QuizQuestionCreate) (now : Nat) : QuizQuestion :=
  { id := freshId (db.quiz_questions.map (·.id))
    level_id := p.level_id
    question_text := p.question_text
    question_type := p.question_type
    options := p.options
    correct_answer := p.correct_answer
    explanation := p.explanation
    difficulty := p.difficulty
    points := p.points
    media_url := p.media_url
    created_at := now }

/-- Create a `QuizQuestion`: max-length checks (lines 173-180) — note
`question_type` is only length-checked, the source declares no enum for it
(line 174) — `points ge=1` (line 179), and the `level_id` foreign key into
quiz_levels (line 172). -/
def createQuizQuestion (db : DB) (p : QuizQuestionCreate) (now : Nat) :
    DB × Except DbError QuizQuestion :=
  if lenLe p.question_text 1000 = false then (db, .error (.ValidationError "question_text"))
  else if lenLe p.question_type 50 = false then (db, .error (.ValidationError "question_type"))
  else if lenLe p.correct_answer 500 = false then (db, .error (.ValidationError "correct_answer"))
  else if lenLe p.explanation 1000 = false then (db, .error (.ValidationError "explanation"))
  else if pointsOk p.points = false then (db, .error (.ValidationError "points"))
  else if optLenLe p.media_url 500 = false then (db, .error (.ValidationError "media_url"))
  else if ∃ l ∈ db.quiz_levels, l.id = p.level_id then
    let q := mkQuizQuestion db p now
    ({ db with quiz_questions := q :: db.quiz_questions }, .ok q)
  else (db, .error (.ForeignKeyError "level_id"))

/-- The `QuizSession` row built by a successful create: column defaults
`score := 0`, `correct_answers := 0`, `is_completed := false`,
`answers := []`, `end_time := none` and `start_time := now`
(lines 193-199). -/
def mkQuizSession (db : DB) (p : QuizSessionCreate) (now : Nat) : QuizSession :=
  { id := freshId (db.quiz_sessions.map (·.id))
    student_id := p.student_id
    level_id := p.level_id
    start_time := now
    end_time := none
    score := 0
    total_questions := p.total_questions
    correct_answers := 0
    is_completed := false
    answers := [] }

/-- Create a `QuizSession`: `total_questions ge=1` (line 196) and the
student_id/level_id foreign keys (lines 191-192). -/
def createQuizSession (db : DB) (p : QuizSessionCreate) (now : Nat) :
    DB × Except DbError QuizSession :=
  if decide (1 ≤ p.total_questions) = false then
    (db, .error (.ValidationError "total_questions"))
  else if ¬ ∃ u ∈ db.users, u.id = p.student_id then
    (db, .error (.ForeignKeyError "student_id"))
  else if ¬ ∃ l ∈ db.quiz_levels, l.id = p.level_id then
    (db, .error (.ForeignKeyError "level_id"))
  else
    let s := mkQuizSession db p now
    ({ db with quiz_sessions := s :: db.quiz_sessions }, .ok s)

/-- The `StudentReward` row built by a successful create
(`earned_at := now`, line 216). -/
def mkStudentReward (db : DB) (p : StudentRewardCreate) (now : Nat) :
    StudentReward :=
  { id := freshId (db.student_rewards.map (·.id))
    student_id := p.student_id
    reward_type := p.reward_type
    title := p.title
    description := p.description
    points_value := p.points_value
    icon_url := p.icon_url
    earned_at := now
    source_activity := p.source_activity }

/-- Create a `StudentReward`: max-length checks (lines 212-217),
`points_value ge=0` (line 214), and the student_id foreign key (line 210). -/
def createStudentReward (db : DB) (p : StudentRewardCreate) (now : Nat) :
    DB × Except DbError StudentReward :=
  if lenLe p.title 200 = false then (db, .error (.ValidationError "title"))
  else if lenLe p.description 500 = false then (db, .error (.ValidationError "description"))
  else if optLenLe p.icon_url 500 = false then (db, .error (.ValidationError "icon_url"))
  else if lenLe p.source_activity 200 = false then (db, .error (.ValidationError "source_activity"))
  else if nonnegOk p.points_value = false then (db, .error (.ValidationError "points_value"))
  else if ¬ ∃ u ∈ db.users, u.id = p.student_id then
    (db, .error (.ForeignKeyError "student_id"))
  else
    let r := mkStudentReward db p now
    ({ db with student_rewards := r :: db.student_rewards }, .ok r)

/-- The `VocabularyConnection` row built by a successful create. -/
def mkVocabularyConnection (db : DB) (p : VocabularyConnectionCreate)
    (now : Nat) : VocabularyConnection :=
  { id := freshId (db.vocabulary_connections.map (·.id))
    source_term_id := p.source_term_id
    target_term_id := p.target_term_id
    connection_type := p.connection_type
    description := p.description
    strength := p.strength
    created_at := now }

/-- Create a `VocabularyConnection`: max-length checks (lines 248-249),
`strength` in 1..5 (line 250), and the two foreign keys into
vocabulary_terms (lines 246-247). -/
def createVocabularyConnection (db : DB) (p : VocabularyConnectionCreate)
    (now : Nat) : DB × Except DbError VocabularyConnection :=
  if lenLe p.connection_type 100 = false then
    (db, .error (.ValidationError "connection_type"))
  else if optLenLe p.description 500 = false then
    (db, .error (.ValidationError "description"))
  else if strengthOk p.strength = false then
    (db, .error (.ValidationError "strength"))
  else if ¬ ∃ t ∈ db.vocabulary_terms, t.id = p.source_term_id then
    (db, .error (.ForeignKeyError "source_term_id"))
  else if ¬ ∃ t ∈ db.vocabulary_terms, t.id = p.target_term_id then
    (db, .error (.ForeignKeyError "target_term_id"))
  else
    let c := mkVocabularyConnection db p now
    ({ db with vocabulary_connections := c :: db.vocabulary_connections }, .ok c)

/-- The `StudentProgress` row built by a successful create
(`last_accessed := now`, line 403). -/
def mkStudentProgress (db : DB) (p : StudentProgressCreate) (now : Nat) :
    StudentProgress :=
  { id := freshId (db.student_progress.map (·.id))
    student_id := p.student_id
    activity_type := p.activity_type
    activity_id := p.activity_id
    progress_percentage := p.progress_percentage
    completion_time := p.completion_time
    score := p.score
    attempts_count := p.attempts_count
    last_accessed := now
    notes := p.notes }

/-- Create a `StudentProgress`: `progress_percentage` in 0..100 (line 399),
optional `score ge=0` (line 401), `attempts_count ge=1` (line 402),
max-length checks, and the student_id foreign key (line 396). -/
def createStudentProgress (db : DB) (p : StudentProgressCreate) (now : Nat) :
    DB × Except DbError StudentProgress :=
  if lenLe p.activity_type 100 = false then
    (db, .error (.ValidationError "activity_type"))
  else if pctOk p.progress_percentage = false then
    (db, .error (.ValidationError "progress_percentage"))
  else if optScoreOk p.score = false then
    (db, .error (.ValidationError "score"))
  else if decide (1 ≤ p.attempts_count) = false then
    (db, .error (.ValidationError "attempts_count"))
  else if optLenLe p.notes 500 = false then
    (db, .error (.ValidationError "notes"))
  else if ¬ ∃ u ∈ db.users, u.id = p.student_id then
    (db, .error (.ForeignKeyError "student_id"))
  else
    let r := mkStudentProgress db p now
    ({ db with student_progress := r :: db.student_progress }, .ok r)

/-! ## Read and update operations -/

/-- Read a `User` by id. -/
def readUser (db : DB) (i : Nat) : Option User :=
  db.users.find? (fun u => u.id == i)

/-- Read a `VocabularyTerm` by id. -/
def readVocabularyTerm (db : DB) (i : Nat) : Option VocabularyTerm :=
  db.vocabulary_terms.find? (fun t => t.id == i)

/-- Read a `QuizLevel` by id. -/
def readQuizLevel (db : DB) (i : Nat) : Option QuizLevel :=
  db.quiz_levels.find? (fun l => l.id == i)

/-- Read a `QuizQuestion` by id. -/
def readQuizQuestion (db : DB) (i : Nat) : Option QuizQuestion :=
  db.quiz_questions.find? (fun q => q.id == i)

/-- Read a `QuizSession` by id. -/
def readQuizSession (db : DB) (i : Nat) : Option QuizSession :=
  db.quiz_sessions.find? (fun s => s.id == i)

/-- Read a `StudentReward` by id. -/
def readStudentReward (db : DB) (i : Nat) : Option StudentReward :=
  db.student_rewards.find? (fun r => r.id == i)

/-- Read a `VocabularyConnection` by id. -/
def readVocabularyConnection (db : DB) (i : Nat) : Option VocabularyConnection :=
  db.vocabulary_connections.find? (fun c => c.id == i)

/-- Read a `StudentProgress` by id. -/
def readStudentProgress (db : DB) (i : Nat) : Option StudentProgress :=
  db.student_progress.find? (fun r => r.id == i)

/-- Apply a `UserUpdate` partial payload to a stored `User` row: only the
four fields declared by the transfer shape (lines 433-437) can change; an
absent field keeps the stored value. -/
def applyUserUpdate (u : User) (p : UserUpdate) : User :=
  { u with
    full_name := p.full_name.getD u.full_name
    grade_level := match p.grade_level with
      | some g => some g
      | none => u.grade_level
    school_name := match p.school_name with
      | some s => some s
      | none => u.school_name
    is_active := p.is_active.getD u.is_active }

/-- Modelled from the spec: `Update(id, partial fields)` for `User` —
validates the supplied subset, fails with `NotFoundError` when no row has
the id, and refreshes `updated_at` to `now` on success. -/
def updateUser (db : DB) (i : Nat) (p : UserUpdate) (now : Nat) :
    DB × Except DbError Unit :=
  if optLenLe p.full_name 200 = false then (db, .error (.ValidationError "full_name"))
  else if optLenLe p.school_name 200 = false then (db, .error (.ValidationError "school_name"))
  else if ∃ u ∈ db.users, u.id = i then
    ({ db with users := db.users.map (fun u =>
        if u.id = i then { applyUserUpdate u p with updated_at := now } else u) },
     .ok ())
  else (db, .error .NotFoundError)

/-! ## The uniform update operation

Modelled from the spec (section 4.1): operations are defined "per entity,
uniformly"; `Rec` is the common shape of a stored row of any entity that
carries both `created_at` and `updated_at`, with its entity-specific columns
in `fields`, and `updateRec` is the uniform
`Update(id, partial fields)`. -/

/-- A stored row of an entity with `created_at` and `updated_at`; `α` holds
the entity-specific columns. -/
structure Rec (α : Type) where
  id : Nat
  created_at : Nat
  updated_at : Nat
  fields : α
deriving DecidableEq

/-- Modelled from the spec: the uniform `Update(id, partial fields)` of
section 4.1 — `patch` is the validated application of the partial payload to
the stored columns (the empty partial is `fun f => Except.ok f`); the update
fails with `NotFoundError` when no row has the id, propagates a validation
failure of the patch, and on success rewrites only the matched row, setting
its `updated_at` to `now`. -/
def updateRec {α : Type} (rows : List (Rec α)) (i : Nat)
    (patch : α → Except DbError α) (now : Nat) :
    Except DbError (List (Rec α)) :=
  match rows with
  | [] => .error .NotFoundError
  | r :: rest =>
    if r.id = i then
      match patch r.fields with
      | .error e => .error e
      | .ok f => .ok ({ r with fields := f, updated_at := now } :: rest)
    else
      match updateRec rest i patch now with
      | .error e => .error e
      | .ok rest' => .ok (r :: rest')

/-! ## Schema reflection

Names of the declared tables and enums and the column names of each table,
read directly off `src/app/models.py` (relationship attributes are not
columns and are not listed). -/

/-- Column names of the `users` table (lines 53-65). -/
def userColumns : List String :=
  ["id", "username", "email", "full_name", "role", "grade_level",
   "school_name", "is_active", "created_at", "updated_at"]

/-- Column names of the `learning_modules` table (lines 75-88). -/
def learningModuleColumns : List String :=
  ["id", "title", "description", "grade_level", "historical_period",
   "curriculum_alignment", "learning_objectives", "teacher_id",
   "is_published", "created_at", "updated_at"]

/-- Column names of the `lesson_plans` table (lines 97-108). -/
def lessonPlanColumns : List String :=
  ["id", "module_id", "title", "duration_minutes", "objectives",
   "activities", "assessment_criteria", "gamification_elements", "created_at"]

/-- Column names of the `teaching_materials` table (lines 114-125). -/
def teachingMaterialColumns : List String :=
  ["id", "module_id", "title", "content_type", "file_url", "description",
   "file_metadata", "is_validated", "created_at"]

/-- Column names of the `student_activities` table (lines 131-142). -/
def studentActivityColumns : List String :=
  ["id", "module_id", "title", "description", "activity_type",
   "instructions", "resources_needed", "estimated_duration", "created_at"]

/-- Column names of the `quiz_levels` table (lines 149-161). -/
def quizLevelColumns : List String :=
  ["id", "level_number", "title", "historical_period", "description",
   "unlock_requirements", "reward_points", "difficulty_level", "is_active",
   "created_at"]

/-- Column names of the `quiz_questions` table (lines 168-181). -/
def quizQuestionColumns : List String :=
  ["id", "level_id", "question_text", "question_type", "options",
   "correct_answer", "explanation", "difficulty", "points", "media_url",
   "created_at"]

/-- Column names of the `quiz_sessions` table (lines 187-199). -/
def quizSessionColumns : List String :=
  ["id", "student_id", "level_id", "start_time", "end_time", "score",
   "total_questions", "correct_answers", "is_completed", "answers"]

/-- Column names of the `student_rewards` table (lines 206-217). -/
def studentRewardColumns : List String :=
  ["id", "student_id", "reward_type", "title", "description",
   "points_value", "icon_url", "earned_at", "source_activity"]

/-- Column names of the `vocabulary_terms` table (lines 224-239). -/
def vocabularyTermColumns : List String :=
  ["id", "term", "definition", "historical_period", "etymology",
   "pronunciation", "audio_url", "image_url", "example_usage",
   "difficulty_level", "tags", "created_at", "updated_at"]

/-- Column names of the `vocabulary_connections` table (lines 242-251). -/
def vocabularyConnectionColumns : List String :=
  ["id", "source_term_id", "target_term_id", "connection_type",
   "description", "strength", "created_at"]

/-- Column names of the `historical_figures` table (lines 255-271). -/
def historicalFigureColumns : List String :=
  ["id", "name", "birth_date", "death_date", "birth_place",
   "historical_period", "role_title", "biography", "major_achievements",
   "historical_context", "portrait_url", "is_featured", "created_at",
   "updated_at"]

/-- Column names of the `diary_entries` table (lines 279-291). -/
def diaryEntryColumns : List String :=
  ["id", "figure_id", "title", "entry_date", "content", "emotional_tone",
   "historical_context", "is_fictional", "order_sequence", "created_at"]

/-- Column names of the `timeline_events` table (lines 297-310). -/
def timelineEventColumns : List String :=
  ["id", "figure_id", "event_title", "event_date", "description",
   "significance", "location", "related_figures", "order_sequence",
   "is_major_event", "created_at"]

/-- Column names of the `multimedia_content` table (lines 316-328). -/
def multimediaContentColumns : List String :=
  ["id", "figure_id", "title", "content_type", "file_url", "description",
   "source_attribution", "is_primary_source", "file_metadata", "created_at"]

/-- Column names of the `ar_triggers` table (lines 335-346). -/
def arTriggerColumns : List String :=
  ["id", "name", "trigger_type", "reference_image_url", "description",
   "recognition_data", "is_active", "created_at", "updated_at"]

/-- Column names of the `ar_experiences` table (lines 352-369). -/
def arExperienceColumns : List String :=
  ["id", "trigger_id", "figure_id", "title", "description", "model_3d_url",
   "animation_data", "interaction_scripts", "audio_narration_url",
   "duration_seconds", "difficulty_level", "educational_objectives",
   "is_published", "created_at", "updated_at"]

/-- Column names of the `ar_interactions` table (lines 375-388). -/
def arInteractionColumns : List String :=
  ["id", "experience_id", "interaction_type", "trigger_condition",
   "response_action", "dialogue_text", "audio_response_url",
   "animation_trigger", "educational_content", "order_sequence",
   "created_at"]

/-- Column names of the `student_progress` table (lines 392-404). -/
def studentProgressColumns : List String :=
  ["id", "student_id", "activity_type", "activity_id",
   "progress_percentage", "completion_time", "score", "attempts_count",
   "last_accessed", "notes"]

/-- Column names of the `usage_analytics` table (lines 411-420): note the
instant column is named `timestamp`, and there is no `created_at`. -/
def usageAnalyticsColumns : List String :=
  ["id", "user_id", "feature_used", "session_duration",
   "actions_performed", "device_info", "timestamp"]

/-- All table entities declared in `src/app/models.py` (class name paired
with its column names). -/
def srcTables : List (String × List String) :=
  [("User", userColumns),
   ("LearningModule", learningModuleColumns),
   ("LessonPlan", lessonPlanColumns),
   ("TeachingMaterial", teachingMaterialColumns),
   ("StudentActivity", studentActivityColumns),
   ("QuizLevel", quizLevelColumns),
   ("QuizQuestion", quizQuestionColumns),
   ("QuizSession", quizSessionColumns),
   ("StudentReward", studentRewardColumns),
   ("VocabularyTerm", vocabularyTermColumns),
   ("VocabularyConnection", vocabularyConnectionColumns),
   ("HistoricalFigure", historicalFigureColumns),
   ("DiaryEntry", diaryEntryColumns),
   ("TimelineEvent", timelineEventColumns),
   ("MultimediaContent", multimediaContentColumns),
   ("ARTrigger", arTriggerColumns),
   ("ARExperience", arExperienceColumns),
   ("ARInteraction", arInteractionColumns),
   ("StudentProgress", studentProgressColumns),
   ("UsageAnalytics", usageAnalyticsColumns)]

/-- The enum types declared in `src/app/models.py` (lines 8-49). -/
def srcEnums : List String :=
  ["GradeLevel", "UserRole", "DifficultyLevel", "ContentType",
   "HistoricalPeriod", "RewardType"]

/-- Modelled from the spec: the second, divergent schema variant of the
repository, which is not under `src/` (the spec describes the full source as
two near-duplicate schema sets of about 920 lines, while `src/app/models.py`
holds only one of them); per spec sections 3 and 9 that variant declares,
among others, a `QuizAttempt` table in place of `QuizSession`, a
`HistoricalPeriod` lookup table (id, name, date range) in place of the enum,
and `UserProgress`/`UserBadge`/`Badge`/`ARModel` tables. -/
def variantTables : List String :=
  ["QuizAttempt", "HistoricalPeriod", "UserProgress", "UserBadge", "Badge",
   "ARModel"]

/-! ## Characterization lemmas for the create operations -/

theorem createUser_ok_shape {db : DB} {p : UserCreateRequest} {now : Nat}
    {db' : DB} {u : User} (h : createUser db p now = (db', .ok u)) :
    db' = { db with users := u :: db.users } ∧
    u.id = freshId (db.users.map (·.id)) ∧
    u.username = p.username ∧ u.email = p.email ∧
    u.full_name = p.full_name ∧ u.school_name = p.school_name ∧
    u.is_active = true ∧ u.created_at = now ∧ u.updated_at = now ∧
    (¬ ∃ v ∈ db.users, v.username = p.username) ∧
    (¬ ∃ v ∈ db.users, v.email = p.email) := by
  unfold createUser at h
  repeat' split at h
  all_goals simp only [Prod.mk.injEq] at h
  all_goals try exact Except.noConfusion h.2
  obtain ⟨h1, h2⟩ := h
  obtain rfl := h1
  obtain rfl := Except.ok.inj h2
  repeat' apply And.intro
  all_goals first | rfl | assumption

theorem createUser_error_db {db : DB} {p : UserCreateRequest} {now : Nat}
    {db' : DB} {e : DbError} (h : createUser db p now = (db', .error e)) :
    db' = db := by
  unfold createUser at h
  repeat' split at h
  all_goals simp only [Prod.mk.injEq] at h
  all_goals first
    | exact h.1.symm
    | exact Except.noConfusion h.2

theorem createVocabularyTerm_ok_shape {db : DB} {p : VocabularyTermCreate}
    {now : Nat} {db' : DB} {t : VocabularyTerm}
    (h : createVocabularyTerm db p now = (db', .ok t)) :
    db' = { db with vocabulary_terms := t :: db.vocabulary_terms } ∧
    t.id = freshId (db.vocabulary_terms.map (·.id)) ∧
    t.term = p.term ∧ t.definition = p.definition ∧
    t.historical_period = p.historical_period ∧
    t.pronunciation = p.pronunciation ∧ t.example_usage = p.example_usage ∧
    t.difficulty_level = p.difficulty_level ∧ t.tags = p.tags ∧
    t.created_at = now ∧ t.updated_at = now ∧
    (¬ ∃ s ∈ db.vocabulary_terms, s.term = p.term) := by
  unfold createVocabularyTerm at h
  repeat' split at h
  all_goals simp only [Prod.mk.injEq] at h
  all_goals try exact Except.noConfusion h.2
  obtain ⟨h1, h2⟩ := h
  obtain rfl := h1
  obtain rfl := Except.ok.inj h2
  repeat' apply And.intro
  all_goals first | rfl | assumption

theorem createVocabularyTerm_error_db {db : DB} {p : VocabularyTermCreate}
    {now : Nat} {db' : DB} {e : DbError}
    (h : createVocabularyTerm db p now = (db', .error e)) : db' = db := by
  unfold createVocabularyTerm at h
  repeat' split at h
  all_goals simp only [Prod.mk.injEq] at h
  all_goals first
    | exact h.1.symm
    | exact Except.noConfusion h.2

theorem createQuizLevel_ok_shape {db : DB} {p : QuizLevelCreate} {now : Nat}
    {db' : DB} {l : QuizLevel} (h : createQuizLevel db p now = (db', .ok l)) :
    db' = { db with quiz_levels := l :: db.quiz_levels } ∧
    l.id = freshId (db.quiz_levels.map (·.id)) ∧
    l.level_number = p.level_number ∧ l.title = p.title ∧
    l.historical_period = p.historical_period ∧
    l.description = p.description ∧
    l.unlock_requirements = p.unlock_requirements ∧
    l.reward_points = p.reward_points ∧
    l.difficulty_level = p.difficulty_level ∧ l.is_active = p.is_active ∧
    l.created_at = now ∧ nonnegOk p.reward_points = true := by
  unfold createQuizLevel at h
  repeat' split at h
  all_goals simp only [Prod.mk.injEq] at h
  all_goals try exact Except.noConfusion h.2
  obtain ⟨h1, h2⟩ := h
  obtain rfl := h1
  obtain rfl := Except.ok.inj h2
  repeat' apply And.intro
  all_goals first
    | rfl
    | assumption
    | exact Bool.ne_false_iff.mp (by assumption)

theorem createQuizLevel_error_db {db : DB} {p : QuizLevelCreate} {now : Nat}
    {db' : DB} {e : DbError} (h : createQuizLevel db p now = (db', .error e)) :
    db' = db := by
  unfold createQuizLevel at h
  repeat' split at h
  all_goals simp only [Prod.mk.injEq] at h
  all_goals first
    | exact h.1.symm
    | exact Except.noConfusion h.2

theorem createQuizQuestion_ok_shape {db : DB} {p : QuizQuestionCreate}
    {now : Nat} {db' : DB} {q : QuizQuestion}
    (h : createQuizQuestion db p now = (db', .ok q)) :
    db' = { db with quiz_questions := q :: db.quiz_questions } ∧
    q.id = freshId (db.quiz_questions.map (·.id)) ∧
    q.level_id = p.level_id ∧ q.question_text = p.question_text ∧
    q.question_type = p.question_type ∧ q.options = p.options ∧
    q.correct_answer = p.correct_answer ∧ q.explanation = p.explanation ∧
    q.difficulty = p.difficulty ∧ q.points = p.points ∧
    q.media_url = p.media_url ∧ q.created_at = now ∧
    (∃ l ∈ db.quiz_levels, l.id = p.level_id) ∧
    pointsOk p.points = true := by
  unfold createQuizQuestion at h
  repeat' split at h
  all_goals simp only [Prod.mk.injEq] at h
  all_goals try exact Except.noConfusion h.2
  obtain ⟨h1, h2⟩ := h
  obtain rfl := h1
  obtain rfl := Except.ok.inj h2
  repeat' apply And.intro
  all_goals first
    | rfl
    | assumption
    | exact Bool.ne_false_iff.mp (by assumption)

theorem createQuizQuestion_error_db {db : DB} {p : QuizQuestionCreate}
    {now : Nat} {db' : DB} {e : DbError}
    (h : createQuizQuestion db p now = (db', .error e)) : db' = db := by
  unfold createQuizQuestion at h
  repeat' split at h
  all_goals simp only [Prod.mk.injEq] at h
  all_goals first
    | exact h.1.symm
    | exact Except.noConfusion h.2

theorem createQuizSession_ok_shape {db : DB} {p : QuizSessionCreate}
    {now : Nat} {db' : DB} {s : QuizSession}
    (h : createQuizSession db p now = (db', .ok s)) :
    db' = { db with quiz_sessions := s :: db.quiz_sessions } ∧
    s.id = freshId (db.quiz_sessions.map (·.id)) ∧
    s.student_id = p.student_id ∧ s.level_id = p.level_id ∧
    s.start_time = now ∧ s.end_time = none ∧ s.score = 0 ∧
    s.total_questions = p.total_questions ∧ s.correct_answers = 0 ∧
    s.is_completed = false ∧ s.answers = [] ∧
    (∃ u ∈ db.users, u.id = p.student_id) ∧
    (∃ l ∈ db.quiz_levels, l.id = p.level_id) := by
  unfold createQuizSession at h
  repeat' split at h
  all_goals simp only [Prod.mk.injEq] at h
  all_goals try exact Except.noConfusion h.2
  obtain ⟨h1, h2⟩ := h
  obtain rfl := h1
  obtain rfl := Except.ok.inj h2
  repeat' apply And.intro
  all_goals first
    | rfl
    | assumption
    | exact not_not.mp (by assumption)

theorem createQuizSession_error_db {db : DB} {p : QuizSessionCreate}
    {now : Nat} {db' : DB} {e : DbError}
    (h : createQuizSession db p now = (db', .error e)) : db' = db := by
  unfold createQuizSession at h
  repeat' split at h
  all_goals simp only [Prod.mk.injEq] at h
  all_goals first
    | exact h.1.symm
    | exact Except.noConfusion h.2

theorem createStudentReward_ok_shape {db : DB} {p : StudentRewardCreate}
    {now : Nat} {db' : DB} {r : StudentReward}
    (h : createStudentReward db p now = (db', .ok r)) :
    db' = { db with student_rewards := r :: db.student_rewards } ∧
    r.id = freshId (db.student_rewards.map (·.id)) ∧
    r.student_id = p.student_id ∧ r.reward_type = p.reward_type ∧
    r.title = p.title ∧ r.description = p.description ∧
    r.points_value = p.points_value ∧ r.icon_url = p.icon_url ∧
    r.earned_at = now ∧ r.source_activity = p.source_activity ∧
    (∃ u ∈ db.users, u.id = p.student_id) ∧
    nonnegOk p.points_value = true := by
  unfold createStudentReward at h
  repeat' split at h
  all_goals simp only [Prod.mk.injEq] at h
  all_goals try exact Except.noConfusion h.2
  obtain ⟨h1, h2⟩ := h
  obtain rfl := h1
  obtain rfl := Except.ok.inj h2
  repeat' apply And.intro
  all_goals first
    | rfl
    | assumption
    | exact not_not.mp (by assumption)
    | exact Bool.ne_false_iff.mp (by assumption)

theorem createStudentReward_error_db {db : DB} {p : StudentRewardCreate}
    {now : Nat} {db' : DB} {e : DbError}
    (h : createStudentReward db p now = (db', .error e)) : db' = db := by
  unfold createStudentReward at h
  repeat' split at h
  all_goals simp only [Prod.mk.injEq] at h
  all_goals first
    | exact h.1.symm
    | exact Except.noConfusion h.2

theorem createVocabularyConnection_ok_shape {db : DB}
    {p : VocabularyConnectionCreate} {now : Nat} {db' : DB}
    {c : VocabularyConnection}
    (h : createVocabularyConnection db p now = (db', .ok c)) :
    db' = { db with vocabulary_connections := c :: db.vocabulary_connections } ∧
    c.id = freshId (db.vocabulary_connections.map (·.id)) ∧
    c.source_term_id = p.source_term_id ∧
    c.target_term_id = p.target_term_id ∧
    c.connection_type = p.connection_type ∧ c.description = p.description ∧
    c.strength = p.strength ∧ c.created_at = now ∧
    (∃ t ∈ db.vocabulary_terms, t.id = p.source_term_id) ∧
    (∃ t ∈ db.vocabulary_terms, t.id = p.target_term_id) ∧
    strengthOk p.strength = true := by
  unfold createVocabularyConnection at h
  repeat' split at h
  all_goals simp only [Prod.mk.injEq] at h
  all_goals try exact Except.noConfusion h.2
  obtain ⟨h1, h2⟩ := h
  obtain rfl := h1
  obtain rfl := Except.ok.inj h2
  repeat' apply And.intro
  all_goals first
    | rfl
    | assumption
    | exact not_not.mp (by assumption)
    | exact Bool.ne_false_iff.mp (by assumption)

theorem createVocabularyConnection_error_db {db : DB}
    {p : VocabularyConnectionCreate} {now : Nat} {db' : DB} {e : DbError}
    (h : createVocabularyConnection db p now = (db', .error e)) : db' = db := by
  unfold createVocabularyConnection at h
  repeat' split at h
  all_goals simp only [Prod.mk.injEq] at h
  all_goals first
    | exact h.1.symm
    | exact Except.noConfusion h.2

theorem createStudentProgress_ok_shape {db : DB} {p : StudentProgressCreate}
    {now : Nat} {db' : DB} {r : StudentProgress}
    (h : createStudentProgress db p now = (db', .ok r)) :
    db' = { db with student_progress := r :: db.student_progress } ∧
    r.id = freshId (db.student_progress.map (·.id)) ∧
    r.student_id = p.student_id ∧ r.activity_type = p.activity_type ∧
    r.activity_id = p.activity_id ∧
    r.progress_percentage = p.progress_percentage ∧
    r.completion_time = p.completion_time ∧ r.score = p.score ∧
    r.attempts_count = p.attempts_count ∧ r.last_accessed = now ∧
    r.notes = p.notes ∧
    (∃ u ∈ db.users, u.id = p.student_id) ∧
    pctOk p.progress_percentage = true ∧
    optScoreOk p.score = true := by
  unfold createStudentProgress at h
  repeat' split at h
  all_goals simp only [Prod.mk.injEq] at h
  all_goals try exact Except.noConfusion h.2
  obtain ⟨h1, h2⟩ := h
  obtain rfl := h1
  obtain rfl := Except.ok.inj h2
  repeat' apply And.intro
  all_goals first
    | rfl
    | assumption
    | exact not_not.mp (by assumption)
    | exact Bool.ne_false_iff.mp (by assumption)

theorem createStudentProgress_error_db {db : DB} {p : StudentProgressCreate}
    {now : Nat} {db' : DB} {e : DbError}
    (h : createStudentProgress db p now = (db', .error e)) : db' = db := by
  unfold createStudentProgress at h
  repeat' split at h
  all_goals simp only [Prod.mk.injEq] at h
  all_goals first
    | exact h.1.symm
    | exact Except.noConfusion h.2

/-! ## Stored-state invariants -/

/-- No two distinct stored users share a username, and no two share an
email (the `unique=True` declarations on lines 57-58). -/
def UsersUnique (db : DB) : Prop :=
  db.users.Pairwise (fun u v => u.username ≠ v.username ∧ u.email ≠ v.email)

/-- No two distinct stored vocabulary terms share a term string (the
`unique=True` declaration on line 228). -/
def TermsUnique (db : DB) : Prop :=
  db.vocabulary_terms.Pairwise (fun s t => s.term ≠ t.term)

/-- C1: distinct User records differ in username and in email, and distinct
VocabularyTerm records differ in term: creating a User preserves the
pairwise-unique invariant; a second Create with an existing username (resp.
email, resp. term) fails with `UniqueConstraintError` and returns the stored
state unchanged. -/
theorem c1_unique_users_and_terms :
    (∀ (db : DB) (p : UserCreateRequest) (now : Nat) (db' : DB) (u : User),
        UsersUnique db → createUser db p now = (db', .ok u) →
        UsersUnique db') ∧
    (∀ (db : DB) (p : UserCreateRequest) (now : Nat) (role : UserRole)
        (gl : Option GradeLevel),
        lenLe p.username 100 = true → lenLe p.email 255 = true →
        lenLe p.full_name 200 = true → optLenLe p.school_name 200 = true →
        UserRole.ofString p.role = some role →
        parseOptTag "grade_level" GradeLevel.ofString p.grade_level = .ok gl →
        (∃ u ∈ db.users, u.username = p.username) →
        createUser db p now = (db, .error (.UniqueConstraintError "username"))) ∧
    (∀ (db : DB) (p : UserCreateRequest) (now : Nat) (role : UserRole)
        (gl : Option GradeLevel),
        lenLe p.username 100 = true → lenLe p.email 255 = true →
        lenLe p.full_name 200 = true → optLenLe p.school_name 200 = true →
        UserRole.ofString p.role = some role →
        parseOptTag "grade_level" GradeLevel.ofString p.grade_level = .ok gl →
        (¬ ∃ u ∈ db.users, u.username = p.username) →
        (∃ u ∈ db.users, u.email = p.email) →
        createUser db p now = (db, .error (.UniqueConstraintError "email"))) ∧
    (∀ (db : DB) (p : VocabularyTermCreate) (now : Nat) (db' : DB)
        (t : VocabularyTerm),
        TermsUnique db → createVocabularyTerm db p now = (db', .ok t) →
        TermsUnique db') ∧
    (∀ (db : DB) (p : VocabularyTermCreate) (now : Nat),
        lenLe p.term 200 = true → lenLe p.definition 1000 = true →
        optLenLe p.pronunciation 200 = true →
        optLenLe p.example_usage 500 = true →
        (∃ t ∈ db.vocabulary_terms, t.term = p.term) →
        createVocabularyTerm db p now =
          (db, .error (.UniqueConstraintError "term"))) := by
  refine ⟨?_, ?_, ?_, ?_, ?_⟩
  · intro db p now db' u hu h
    obtain ⟨hdb, _, hun, hem, _, _, _, _, _, hnu, hne⟩ := createUser_ok_shape h
    subst hdb
    unfold UsersUnique at hu ⊢
    push_neg at hnu hne
    refine List.Pairwise.cons ?_ hu
    intro v hv
    rw [hun, hem]
    exact ⟨(hnu v hv).symm, (hne v hv).symm⟩
  · intro db p now role gl h1 h2 h3 h4 hrole hgl hc
    unfold createUser
    simp [h1, h2, h3, h4, hrole, hgl, hc]
  · intro db p now role gl h1 h2 h3 h4 hrole hgl hnc hc
    unfold createUser
    simp [h1, h2, h3, h4, hrole, hgl, hnc, hc]
  · intro db p now db' t ht h
    obtain ⟨hdb, _, htm, _, _, _, _, _, _, _, _, hnt⟩ :=
      createVocabularyTerm_ok_shape h
    subst hdb
    unfold TermsUnique at ht ⊢
    push_neg at hnt
    refine List.Pairwise.cons ?_ ht
    intro v hv
    rw [htm]
    exact (hnt v hv).symm
  · intro db p now h1 h2 h3 h4 hc
    unfold createVocabularyTerm
    simp [h1, h2, h3, h4, hc]

/-- A stored user for concrete instances. -/
def aliceUser : User :=
  { id := 1, username := "alice", email := "alice@sch.id",
    full_name := "Alice", role := .student, grade_level := none,
    school_name := none, is_active := true, created_at := 0, updated_at := 0 }

/-- A store holding exactly the user `aliceUser`. -/
def aliceDB : DB := { DB.empty with users := [aliceUser] }

/-- A stored vocabulary term for concrete instances. -/
def candiTerm : VocabularyTerm :=
  { id := 1, term := "candi", definition := "kuil batu",
    historical_period := .hindu_buddhist, etymology := none,
    pronunciation := none, audio_url := none, image_url := none,
    example_usage := none, difficulty_level := .medium, tags := [],
    created_at := 0, updated_at := 0 }

/-- A store holding exactly the vocabulary term `candiTerm`. -/
def candiDB : DB := { DB.empty with vocabulary_terms := [candiTerm] }

theorem c1_witness :
    createUser aliceDB
      { username := "alice", email := "b@sch.id", full_name := "Bob",
        role := "student", grade_level := none, school_name := none } 7 =
      (aliceDB, .error (.UniqueConstraintError "username")) ∧
    createVocabularyTerm candiDB
      { term := "candi", definition := "lain", historical_period := .islamic_kingdoms,
        pronunciation := none, example_usage := none,
        difficulty_level := .easy, tags := [] } 7 =
      (candiDB, .error (.UniqueConstraintError "term")) :=
  ⟨c1_unique_users_and_terms.2.1 aliceDB _ 7 .student none rfl rfl rfl rfl rfl
      rfl ⟨aliceUser, by simp [aliceDB, DB.empty], rfl⟩,
    c1_unique_users_and_terms.2.2.2.2 candiDB _ 7 rfl rfl rfl rfl
      ⟨candiTerm, by simp [candiDB, DB.empty], rfl⟩⟩

/-- C2: creating a `VocabularyConnection` whose strength lies outside 1..5
(in particular 0 or 6) fails with `ValidationError` on the strength field
and leaves the store unchanged, while every strength in {1,..,5} passes the
declared `ge=1, le=5` range check. -/
theorem c2_strength_range :
    (∀ (db : DB) (p : VocabularyConnectionCreate) (now : Nat),
        lenLe p.connection_type 100 = true →
        optLenLe p.description 500 = true →
        ¬(1 ≤ p.strength ∧ p.strength ≤ 5) →
        createVocabularyConnection db p now =
          (db, .error (.ValidationError "strength"))) ∧
    (∀ s : Int, 1 ≤ s → s ≤ 5 → strengthOk s = true) := by
  constructor
  · intro db p now h1 h2 hs
    have hb : strengthOk p.strength = false := by
      unfold strengthOk
      rcases not_and_or.mp hs with h | h <;> simp [h]
    unfold createVocabularyConnection
    simp [h1, h2, hb]
  · intro s hs1 hs2
    unfold strengthOk
    simp [hs1, hs2]

theorem c2_witness :
    createVocabularyConnection candiDB
      { source_term_id := 1, target_term_id := 1,
        connection_type := "related", description := none, strength := 0 } 7 =
      (candiDB, .error (.ValidationError "strength")) ∧
    createVocabularyConnection candiDB
      { source_term_id := 1, target_term_id := 1,
        connection_type := "related", description := none, strength := 6 } 7 =
      (candiDB, .error (.ValidationError "strength")) ∧
    strengthOk 1 = true ∧ strengthOk 2 = true ∧ strengthOk 3 = true ∧
    strengthOk 4 = true ∧ strengthOk 5 = true :=
  ⟨c2_strength_range.1 candiDB _ 7 rfl rfl (by decide),
    c2_strength_range.1 candiDB _ 7 rfl rfl (by decide),
    c2_strength_range.2 1 (by decide) (by decide),
    c2_strength_range.2 2 (by decide) (by decide),
    c2_strength_range.2 3 (by decide) (by decide),
    c2_strength_range.2 4 (by decide) (by decide),
    c2_strength_range.2 5 (by decide) (by decide)⟩

/-- A stored quiz level for concrete instances. -/
def levelOne : QuizLevel :=
  { id := 1, level_number := 1, title := "Level 1",
    historical_period := .prehistoric, description := "zaman awal",
    unlock_requirements := [], reward_points := 100,
    difficulty_level := .easy, is_active := true, created_at := 0 }

/-- A store holding exactly the quiz level `levelOne`. -/
def levelDB : DB := { DB.empty with quiz_levels := [levelOne] }

/-- A quiz-question payload whose `question_type` is outside the set the
source comment suggests (multiple_choice, true_false, fill_blank). -/
def essayQuestion : QuizQuestionCreate :=
  { level_id := 1, question_text := "Apa itu candi?",
    question_type := "essay", options := [], correct_answer := "jawaban",
    explanation := "penjelasan", difficulty := .medium, points := 10,
    media_url := none }

/-- C3 counterexample: `question_type` on `QuizQuestion` is declared as a
plain bounded string, not an enum (line 174), so a Create whose
question_type is "essay" — outside {multiple_choice, true_false,
fill_blank} — succeeds instead of being rejected. -/
theorem c3_counterexample :
    (createQuizQuestion levelDB essayQuestion 7).2 =
      .ok (mkQuizQuestion levelDB essayQuestion 7) ∧
    (mkQuizQuestion levelDB essayQuestion 7).question_type = "essay" ∧
    "essay" ∉ ["multiple_choice", "true_false", "fill_blank"] := by
  refine ⟨?_, rfl, by decide⟩
  rfl

/-- C3 amended: the fields declared with enum types in the source — role,
grade_level, difficulty_level, content_type, reward_type — accept exactly
the members of their fixed closed tag sets, and a Create of a User with
role = "wizard" fails with `ValidationError`; but `question_type` on
QuizQuestion is a plain length-bounded string whose value is not checked
against any closed set, and no table declares a `badge_type` column. -/
theorem c3_closed_enum_fields :
    (∀ s : String, (UserRole.ofString s).isSome = true ↔ s ∈ UserRole.tags) ∧
    (∀ s : String,
        (GradeLevel.ofString s).isSome = true ↔ s ∈ GradeLevel.tags) ∧
    (∀ s : String,
        (DifficultyLevel.ofString s).isSome = true ↔
          s ∈ DifficultyLevel.tags) ∧
    (∀ s : String,
        (ContentType.ofString s).isSome = true ↔ s ∈ ContentType.tags) ∧
    (∀ s : String,
        (RewardType.ofString s).isSome = true ↔ s ∈ RewardType.tags) ∧
    (∀ (db : DB) (p : UserCreateRequest) (now : Nat),
        lenLe p.username 100 = true → lenLe p.email 255 = true →
        lenLe p.full_name 200 = true → optLenLe p.school_name 200 = true →
        p.role = "wizard" →
        createUser db p now = (db, .error (.ValidationError "role"))) ∧
    (∀ (db : DB) (p : QuizQuestionCreate) (now : Nat),
        lenLe p.question_text 1000 = true →
        lenLe p.question_type 50 = true →
        lenLe p.correct_answer 500 = true →
        lenLe p.explanation 1000 = true → pointsOk p.points = true →
        optLenLe p.media_url 500 = true →
        (∃ l ∈ db.quiz_levels, l.id = p.level_id) →
        createQuizQuestion db p now =
          ({ db with
              quiz_questions := mkQuizQuestion db p now :: db.quiz_questions },
            .ok (mkQuizQuestion db p now))) ∧
    (∀ tbl ∈ srcTables, "badge_type" ∉ tbl.2) := by
  refine ⟨?_, ?_, ?_, ?_, ?_, ?_, ?_, by decide⟩
  · intro s
    constructor
    · intro h
      unfold UserRole.ofString at h
      split at h <;> simp_all [UserRole.tags]
    · intro h
      simp only [UserRole.tags, List.mem_cons, List.mem_singleton,
        List.not_mem_nil, or_false] at h
      rcases h with rfl | rfl | rfl <;> rfl
  · intro s
    constructor
    · intro h
      unfold GradeLevel.ofString at h
      split at h <;> simp_all [GradeLevel.tags]
    · intro h
      simp only [GradeLevel.tags, List.mem_cons, List.mem_singleton,
        List.not_mem_nil, or_false] at h
      rcases h with rfl | rfl | rfl <;> rfl
  · intro s
    constructor
    · intro h
      unfold DifficultyLevel.ofString at h
      split at h <;> simp_all [DifficultyLevel.tags]
    · intro h
      simp only [DifficultyLevel.tags, List.mem_cons, List.mem_singleton,
        List.not_mem_nil, or_false] at h
      rcases h with rfl | rfl | rfl <;> rfl
  · intro s
    constructor
    · intro h
      unfold ContentType.ofString at h
      split at h <;> simp_all [ContentType.tags]
    · intro h
      simp only [ContentType.tags, List.mem_cons, List.mem_singleton,
        List.not_mem_nil, or_false] at h
      rcases h with rfl | rfl | rfl | rfl | rfl | rfl <;> rfl
  · intro s
    constructor
    · intro h
      unfold RewardType.ofString at h
      split at h <;> simp_all [RewardType.tags]
    · intro h
      simp only [RewardType.tags, List.mem_cons, List.mem_singleton,
        List.not_mem_nil, or_false] at h
      rcases h with rfl | rfl | rfl | rfl <;> rfl
  · intro db p now h1 h2 h3 h4 hw
    unfold createUser
    simp [h1, h2, h3, h4, hw, UserRole.ofString]
  · intro db p now h1 h2 h3 h4 h5 h6 hfk
    unfold createQuizQuestion
    simp [h1, h2, h3, h4, h5, h6, hfk]

theorem c3_witness :
    createUser DB.empty
      { username := "gandalf", email := "g@sch.id", full_name := "Gandalf",
        role := "wizard", grade_level := none, school_name := none } 7 =
      (DB.empty, .error (.ValidationError "role")) ∧
    createQuizQuestion levelDB essayQuestion 7 =
      ({ levelDB with
          quiz_questions := mkQuizQuestion levelDB essayQuestion 7 ::
            levelDB.quiz_questions },
        .ok (mkQuizQuestion levelDB essayQuestion 7)) :=
  ⟨c3_closed_enum_fields.2.2.2.2.2.1 DB.empty _ 7 rfl rfl rfl rfl rfl,
    c3_closed_enum_fields.2.2.2.2.2.2.1 levelDB essayQuestion 7 rfl rfl rfl
      rfl rfl rfl ⟨levelOne, by simp [levelDB, DB.empty], rfl⟩⟩

/-- Every foreign-key column of every stored row references an existing row
of its target table (the `foreign_key=...` declarations of the modelled
entities: quiz_questions.level_id, quiz_sessions.student_id/level_id,
student_rewards.student_id, vocabulary_connections.source/target_term_id,
student_progress.student_id). -/
def FKInv (db : DB) : Prop :=
  (∀ q ∈ db.quiz_questions, ∃ l ∈ db.quiz_levels, l.id = q.level_id) ∧
  (∀ s ∈ db.quiz_sessions,
    (∃ u ∈ db.users, u.id = s.student_id) ∧
    (∃ l ∈ db.quiz_levels, l.id = s.level_id)) ∧
  (∀ r ∈ db.student_rewards, ∃ u ∈ db.users, u.id = r.student_id) ∧
  (∀ c ∈ db.vocabulary_connections,
    (∃ t ∈ db.vocabulary_terms, t.id = c.source_term_id) ∧
    (∃ t ∈ db.vocabulary_terms, t.id = c.target_term_id)) ∧
  (∀ r ∈ db.student_progress, ∃ u ∈ db.users, u.id = r.student_id)

theorem exists_mem_cons_of_exists {α : Type} {l : List α} {a : α}
    {P : α → Prop} (h : ∃ x ∈ l, P x) : ∃ x ∈ a :: l, P x := by
  obtain ⟨x, hx, hp⟩ := h
  exact ⟨x, List.mem_cons_of_mem _ hx, hp⟩

/-- C4: creating a `QuizQuestion` whose level_id matches no stored
`QuizLevel` fails with `ForeignKeyError` and leaves the store unchanged;
and the referential-integrity invariant — every foreign-key field of every
stored record references an existing row of its target table — is preserved
by every modelled create operation. -/
theorem c4_foreign_keys :
    (∀ (db : DB) (p : QuizQuestionCreate) (now : Nat),
        lenLe p.question_text 1000 = true →
        lenLe p.question_type 50 = true →
        lenLe p.correct_answer 500 = true →
        lenLe p.explanation 1000 = true → pointsOk p.points = true →
        optLenLe p.media_url 500 = true →
        (¬ ∃ l ∈ db.quiz_levels, l.id = p.level_id) →
        createQuizQuestion db p now =
          (db, .error (.ForeignKeyError "level_id"))) ∧
    (∀ (db : DB) (p : UserCreateRequest) (now : Nat),
        FKInv db → FKInv (createUser db p now).1) ∧
    (∀ (db : DB) (p : QuizLevelCreate) (now : Nat),
        FKInv db → FKInv (createQuizLevel db p now).1) ∧
    (∀ (db : DB) (p : VocabularyTermCreate) (now : Nat),
        FKInv db → FKInv (createVocabularyTerm db p now).1) ∧
    (∀ (db : DB) (p : QuizQuestionCreate) (now : Nat),
        FKInv db → FKInv (createQuizQuestion db p now).1) ∧
    (∀ (db : DB) (p : QuizSessionCreate) (now : Nat),
        FKInv db → FKInv (createQuizSession db p now).1) ∧
    (∀ (db : DB) (p : StudentRewardCreate) (now : Nat),
        FKInv db → FKInv (createStudentReward db p now).1) ∧
    (∀ (db : DB) (p : VocabularyConnectionCreate) (now : Nat),
        FKInv db → FKInv (createVocabularyConnection db p now).1) ∧
    (∀ (db : DB) (p : StudentProgressCreate) (now : Nat),
        FKInv db → FKInv (createStudentProgress db p now).1) := by
  refine ⟨?_, ?_, ?_, ?_, ?_, ?_, ?_, ?_, ?_⟩
  · intro db p now h1 h2 h3 h4 h5 h6 hfk
    unfold createQuizQuestion
    simp [h1, h2, h3, h4, h5, h6, hfk]
  · intro db p now h
    rcases hres : createUser db p now with ⟨db', r⟩
    rcases r with e | u
    · rw [createUser_error_db hres]
      exact h
    · obtain ⟨hdb, _⟩ := createUser_ok_shape hres
      subst hdb
      obtain ⟨h1, h2, h3, h4, h5⟩ := h
      exact ⟨h1,
        fun s hs => ⟨exists_mem_cons_of_exists (h2 s hs).1, (h2 s hs).2⟩,
        fun r hr => exists_mem_cons_of_exists (h3 r hr), h4,
        fun r hr => exists_mem_cons_of_exists (h5 r hr)⟩
  · intro db p now h
    rcases hres : createQuizLevel db p now with ⟨db', r⟩
    rcases r with e | l
    · rw [createQuizLevel_error_db hres]
      exact h
    · obtain ⟨hdb, _⟩ := createQuizLevel_ok_shape hres
      subst hdb
      obtain ⟨h1, h2, h3, h4, h5⟩ := h
      exact ⟨fun q hq => exists_mem_cons_of_exists (h1 q hq),
        fun s hs => ⟨(h2 s hs).1, exists_mem_cons_of_exists (h2 s hs).2⟩,
        h3, h4, h5⟩
  · intro db p now h
    rcases hres : createVocabularyTerm db p now with ⟨db', r⟩
    rcases r with e | t
    · rw [createVocabularyTerm_error_db hres]
      exact h
    · obtain ⟨hdb, _⟩ := createVocabularyTerm_ok_shape hres
      subst hdb
      obtain ⟨h1, h2, h3, h4, h5⟩ := h
      exact ⟨h1, h2, h3,
        fun c hc => ⟨exists_mem_cons_of_exists (h4 c hc).1,
          exists_mem_cons_of_exists (h4 c hc).2⟩, h5⟩
  · intro db p now h
    rcases hres : createQuizQuestion db p now with ⟨db', r⟩
    rcases r with e | q
    · rw [createQuizQuestion_error_db hres]
      exact h
    · obtain ⟨hdb, _, hlid, _, _, _, _, _, _, _, _, _, hfk, _⟩ :=
        createQuizQuestion_ok_shape hres
      subst hdb
      obtain ⟨h1, h2, h3, h4, h5⟩ := h
      refine ⟨?_, h2, h3, h4, h5⟩
      intro q' hq'
      rcases List.mem_cons.mp hq' with rfl | hq'
      · rw [hlid]
        exact hfk
      · exact h1 q' hq'
  · intro db p now h
    rcases hres : createQuizSession db p now with ⟨db', r⟩
    rcases r with e | s
    · rw [createQuizSession_error_db hres]
      exact h
    · obtain ⟨hdb, _, hsid, hlid, _, _, _, _, _, _, _, hfku, hfkl⟩ :=
        createQuizSession_ok_shape hres
      subst hdb
      obtain ⟨h1, h2, h3, h4, h5⟩ := h
      refine ⟨h1, ?_, h3, h4, h5⟩
      intro s' hs'
      rcases List.mem_cons.mp hs' with rfl | hs'
      · rw [hsid, hlid]
        exact ⟨hfku, hfkl⟩
      · exact h2 s' hs'
  · intro db p now h
    rcases hres : createStudentReward db p now with ⟨db', r⟩
    rcases r with e | rw
    · rw [createStudentReward_error_db hres]
      exact h
    · obtain ⟨hdb, _, hsid, _, _, _, _, _, _, _, hfk, _⟩ :=
        createStudentReward_ok_shape hres
      subst hdb
      obtain ⟨h1, h2, h3, h4, h5⟩ := h
      refine ⟨h1, h2, ?_, h4, h5⟩
      intro r' hr'
      rcases List.mem_cons.mp hr' with rfl | hr'
      · rw [hsid]
        exact hfk
      · exact h3 r' hr'
  · intro db p now h
    rcases hres : createVocabularyConnection db p now with ⟨db', r⟩
    rcases r with e | c
    · rw [createVocabularyConnection_error_db hres]
      exact h
    · obtain ⟨hdb, _, hsid, htid, _, _, _, _, hfks, hfkt, _⟩ :=
        createVocabularyConnection_ok_shape hres
      subst hdb
      obtain ⟨h1, h2, h3, h4, h5⟩ := h
      refine ⟨h1, h2, h3, ?_, h5⟩
      intro c' hc'
      rcases List.mem_cons.mp hc' with rfl | hc'
      · rw [hsid, htid]
        exact ⟨hfks, hfkt⟩
      · exact h4 c' hc'
  · intro db p now h
    rcases hres : createStudentProgress db p now with ⟨db', r⟩
    rcases r with e | pr
    · rw [createStudentProgress_error_db hres]
      exact h
    · obtain ⟨hdb, _, hsid, _, _, _, _, _, _, _, _, hfk, _, _⟩ :=
        createStudentProgress_ok_shape hres
      subst hdb
      obtain ⟨h1, h2, h3, h4, h5⟩ := h
      refine ⟨h1, h2, h3, h4, ?_⟩
      intro r' hr'
      rcases List.mem_cons.mp hr' with rfl | hr'
      · rw [hsid]
        exact hfk
      · exact h5 r' hr'

theorem c4_witness :
    createQuizQuestion DB.empty essayQuestion 7 =
      (DB.empty, .error (.ForeignKeyError "level_id")) ∧
    FKInv (createUser DB.empty
      { username := "alice", email := "alice@sch.id", full_name := "Alice",
        role := "student", grade_level := none, school_name := none } 7).1 :=
  ⟨c4_foreign_keys.1 DB.empty essayQuestion 7 rfl rfl rfl rfl rfl rfl
      (by simp [DB.empty]),
    c4_foreign_keys.2.1 DB.empty _ 7 (by simp [FKInv, DB.empty])⟩

/-- A quiz-question payload with points = 0 and every other field valid
(level 1 exists in `levelDB`). -/
def zeroPointsQuestion : QuizQuestionCreate :=
  { level_id := 1, question_text := "Kapan candi dibangun?",
    question_type := "true_false", options := [], correct_answer := "benar",
    explanation := "penjelasan", difficulty := .easy, points := 0,
    media_url := none }

/-- C5 counterexample: `QuizQuestion.points` is declared `ge=1` (line 179),
so a Create with points = 0 — a value ≥ 0 the claim says is accepted — is
rejected with `ValidationError`. -/
theorem c5_counterexample :
    createQuizQuestion levelDB zeroPointsQuestion 7 =
      (levelDB, .error (.ValidationError "points")) ∧
    zeroPointsQuestion.points = 0 := by
  exact ⟨rfl, rfl⟩

/-- C5 amended: progress_percentage is accepted exactly on 0..100;
QuizLevel.reward_points, StudentReward.points_value and the optional
StudentProgress.score accept exactly the values ≥ 0, rejecting negative
values with `ValidationError`; QuizQuestion.points accepts exactly the
values ≥ 1 (its declared bound is ge=1, so 0 is rejected); QuizSession.score
is not caller-supplied and a created session starts with score 0. -/
theorem c5_bounded_ranges :
    (∀ x : Int, pctOk x = true ↔ 0 ≤ x ∧ x ≤ 100) ∧
    (∀ x : Int, nonnegOk x = true ↔ 0 ≤ x) ∧
    (∀ x : Int, pointsOk x = true ↔ 1 ≤ x) ∧
    (∀ (db : DB) (p : StudentProgressCreate) (now : Nat),
        lenLe p.activity_type 100 = true →
        ¬(0 ≤ p.progress_percentage ∧ p.progress_percentage ≤ 100) →
        createStudentProgress db p now =
          (db, .error (.ValidationError "progress_percentage"))) ∧
    (∀ (db : DB) (p : StudentProgressCreate) (now : Nat) (s : Int),
        lenLe p.activity_type 100 = true →
        pctOk p.progress_percentage = true → p.score = some s → s < 0 →
        createStudentProgress db p now =
          (db, .error (.ValidationError "score"))) ∧
    (∀ (db : DB) (p : QuizLevelCreate) (now : Nat),
        decide (1 ≤ p.level_number) = true → lenLe p.title 200 = true →
        lenLe p.description 500 = true → p.reward_points < 0 →
        createQuizLevel db p now =
          (db, .error (.ValidationError "reward_points"))) ∧
    (∀ (db : DB) (p : StudentRewardCreate) (now : Nat),
        lenLe p.title 200 = true → lenLe p.description 500 = true →
        optLenLe p.icon_url 500 = true →
        lenLe p.source_activity 200 = true → p.points_value < 0 →
        createStudentReward db p now =
          (db, .error (.ValidationError "points_value"))) ∧
    (∀ (db : DB) (p : QuizQuestionCreate) (now : Nat),
        lenLe p.question_text 1000 = true →
        lenLe p.question_type 50 = true →
        lenLe p.correct_answer 500 = true →
        lenLe p.explanation 1000 = true → p.points < 1 →
        createQuizQuestion db p now =
          (db, .error (.ValidationError "points"))) ∧
    (∀ (db : DB) (p : StudentProgressCreate) (now : Nat) (db' : DB)
        (r : StudentProgress),
        createStudentProgress db p now = (db', .ok r) →
        (0 ≤ r.progress_percentage ∧ r.progress_percentage ≤ 100) ∧
        (∀ s : Int, r.score = some s → 0 ≤ s)) ∧
    (∀ (db : DB) (p : QuizLevelCreate) (now : Nat) (db' : DB)
        (l : QuizLevel),
        createQuizLevel db p now = (db', .ok l) → 0 ≤ l.reward_points) ∧
    (∀ (db : DB) (p : StudentRewardCreate) (now : Nat) (db' : DB)
        (r : StudentReward),
        createStudentReward db p now = (db', .ok r) → 0 ≤ r.points_value) ∧
    (∀ (db : DB) (p : QuizQuestionCreate) (now : Nat) (db' : DB)
        (q : QuizQuestion),
        createQuizQuestion db p now = (db', .ok q) → 1 ≤ q.points) ∧
    (∀ (db : DB) (p : QuizSessionCreate) (now : Nat) (db' : DB)
        (s : QuizSession),
        createQuizSession db p now = (db', .ok s) → s.score = 0) := by
  refine ⟨?_, ?_, ?_, ?_, ?_, ?_, ?_, ?_, ?_, ?_, ?_, ?_, ?_⟩
  · intro x
    unfold pctOk
    simp
  · intro x
    unfold nonnegOk
    simp
  · intro x
    unfold pointsOk
    simp
  · intro db p now h1 hx
    have hb : pctOk p.progress_percentage = false := by
      unfold pctOk
      rcases not_and_or.mp hx with h | h <;> simp [h]
    unfold createStudentProgress
    simp [h1, hb]
  · intro db p now s h1 h2 hs hneg
    have hb : optScoreOk p.score = false := by
      rw [hs]
      unfold optScoreOk nonnegOk
      simp
      omega
    unfold createStudentProgress
    simp [h1, h2, hb]
  · intro db p now h1 h2 h3 hneg
    have hb : nonnegOk p.reward_points = false := by
      unfold nonnegOk
      simp
      omega
    unfold createQuizLevel
    simp [h1, h2, h3, hb]
  · intro db p now h1 h2 h3 h4 hneg
    have hb : nonnegOk p.points_value = false := by
      unfold nonnegOk
      simp
      omega
    unfold createStudentReward
    simp [h1, h2, h3, h4, hb]
  · intro db p now h1 h2 h3 h4 hlt
    have hb : pointsOk p.points = false := by
      unfold pointsOk
      simp
      omega
    unfold createQuizQuestion
    simp [h1, h2, h3, h4, hb]
  · intro db p now db' r h
    obtain ⟨_, _, _, _, _, hpct, _, hsc, _, _, _, _, hpok, hsok⟩ :=
      createStudentProgress_ok_shape h
    unfold pctOk at hpok
    constructor
    · rw [hpct]
      simpa using hpok
    · intro s hs
      rw [hsc] at hs
      rw [hs] at hsok
      unfold optScoreOk nonnegOk at hsok
      simpa using hsok
  · intro db p now db' l h
    obtain ⟨_, _, _, _, _, _, _, hrp, _, _, _, hnn⟩ :=
      createQuizLevel_ok_shape h
    rw [hrp]
    unfold nonnegOk at hnn
    simpa using hnn
  · intro db p now db' r h
    obtain ⟨_, _, _, _, _, _, hpv, _, _, _, _, hnn⟩ :=
      createStudentReward_ok_shape h
    rw [hpv]
    unfold nonnegOk at hnn
    simpa using hnn
  · intro db p now db' q h
    obtain ⟨_, _, _, _, _, _, _, _, _, hpt, _, _, _, hok⟩ :=
      createQuizQuestion_ok_shape h
    rw [hpt]
    unfold pointsOk at hok
    simpa using hok
  · intro db p now db' s h
    obtain ⟨_, _, _, _, _, _, hsc, _⟩ := createQuizSession_ok_shape h
    exact hsc

theorem c5_witness :
    createStudentProgress aliceDB
      { student_id := 1, activity_type := "quiz", activity_id := 1,
        progress_percentage := 101, completion_time := none, score := none,
        attempts_count := 1, notes := none } 7 =
      (aliceDB, .error (.ValidationError "progress_percentage")) ∧
    createQuizLevel DB.empty
      { level_number := 1, title := "Level 1",
        historical_period := .prehistoric, description := "awal",
        unlock_requirements := [], reward_points := -1,
        difficulty_level := .easy, is_active := true } 7 =
      (DB.empty, .error (.ValidationError "reward_points")) ∧
    createQuizQuestion levelDB zeroPointsQuestion 7 =
      (levelDB, .error (.ValidationError "points")) :=
  ⟨c5_bounded_ranges.2.2.2.1 aliceDB _ 7 rfl (by decide),
    c5_bounded_ranges.2.2.2.2.2.1 DB.empty _ 7 rfl rfl rfl (by decide),
    c5_bounded_ranges.2.2.2.2.2.2.2.1 levelDB zeroPointsQuestion 7 rfl rfl
      rfl rfl (by decide)⟩

/-- C6: for every entity carrying `updated_at` (rows of shape `Rec`), a
successful uniform `Update(id, patch)` — including the empty partial
`Update(id, {})`, whose patch is `fun x => Except.ok x` — splits the store
around the single matched record, strictly advances that record's
`updated_at` past its prior value (the current instant lies past every
stored timestamp), preserves its `id`, `created_at` and, for the empty
partial, all of its entity columns, and leaves every other record
unchanged. -/
theorem c6_update_advances_updated_at {α : Type} (rows rows' : List (Rec α))
    (i : Nat) (patch : α → Except DbError α) (now : Nat)
    (hclock : ∀ r ∈ rows, r.updated_at < now)
    (h : updateRec rows i patch now = .ok rows') :
    ∃ (pre post : List (Rec α)) (r : Rec α) (f : α),
      rows = pre ++ r :: post ∧ r.id = i ∧ (∀ x ∈ pre, x.id ≠ i) ∧
      patch r.fields = .ok f ∧
      rows' = pre ++ { r with fields := f, updated_at := now } :: post ∧
      r.updated_at < now ∧
      (patch = (fun x => .ok x) → f = r.fields) := by
  induction rows generalizing rows' with
  | nil => exact Except.noConfusion h
  | cons a l ih =>
    unfold updateRec at h
    by_cases hid : a.id = i
    · rw [if_pos hid] at h
      rcases hp : patch a.fields with e | f
      · rw [hp] at h
        exact Except.noConfusion h
      · rw [hp] at h
        obtain rfl := Except.ok.inj h
        refine ⟨[], l, a, f, by simp, hid, by simp, hp, by simp,
          hclock a (List.mem_cons_self a l), ?_⟩
        intro hpe
        rw [hpe] at hp
        exact (Except.ok.inj hp).symm
    · rw [if_neg hid] at h
      rcases hrec : updateRec l i patch now with e | l'
      · rw [hrec] at h
        exact Except.noConfusion h
      · rw [hrec] at h
        obtain rfl := Except.ok.inj h
        obtain ⟨pre, post, r, f, h1, h2, h3, h4, h5, h6, h7⟩ :=
          ih l' (fun x hx => hclock x (List.mem_cons_of_mem a hx)) hrec
        refine ⟨a :: pre, post, r, f, by rw [h1]; rfl, h2, ?_, h4,
          by rw [h5]; rfl, h6, h7⟩
        intro x hx
        rcases List.mem_cons.mp hx with rfl | hx
        · exact hid
        · exact h3 x hx

theorem c6_witness :
    ∃ (pre post : List (Rec String)) (r : Rec String) (f : String),
      [(⟨1, 0, 0, "x"⟩ : Rec String)] = pre ++ r :: post ∧ r.id = 1 ∧
      (∀ x ∈ pre, x.id ≠ 1) ∧
      (fun x => (Except.ok x : Except DbError String)) r.fields = .ok f ∧
      [(⟨1, 0, 5, "x"⟩ : Rec String)] =
        pre ++ { r with fields := f, updated_at := 5 } :: post ∧
      r.updated_at < 5 ∧
      ((fun x => (Except.ok x : Except DbError String)) =
          (fun x => .ok x) → f = r.fields) :=
  c6_update_advances_updated_at [⟨1, 0, 0, "x"⟩] [⟨1, 0, 5, "x"⟩] 1
    (fun x => .ok x) 5 (by simp) rfl

theorem createUser_ok_tags {db : DB} {p : UserCreateRequest} {now : Nat}
    {db' : DB} {u : User} (h : createUser db p now = (db', .ok u)) :
    UserRole.ofString p.role = some u.role ∧
    parseOptTag "grade_level" GradeLevel.ofString p.grade_level =
      .ok u.grade_level := by
  unfold createUser at h
  repeat' split at h
  all_goals simp only [Prod.mk.injEq] at h
  all_goals try exact Except.noConfusion h.2
  obtain ⟨h1, h2⟩ := h
  obtain rfl := Except.ok.inj h2
  constructor <;> assumption

/-- C7: for every modelled entity, a Create with a valid payload followed
immediately by a Read of the returned record's id yields exactly the
returned record, and that record agrees with the input payload on every
caller-supplied field. -/
theorem c7_read_after_write :
    (∀ (db : DB) (p : UserCreateRequest) (now : Nat) (db' : DB) (u : User),
        createUser db p now = (db', .ok u) →
        readUser db' u.id = some u ∧ u.username = p.username ∧
        u.email = p.email ∧ u.full_name = p.full_name ∧
        u.school_name = p.school_name ∧
        UserRole.ofString p.role = some u.role ∧
        parseOptTag "grade_level" GradeLevel.ofString p.grade_level =
          .ok u.grade_level) ∧
    (∀ (db : DB) (p : VocabularyTermCreate) (now : Nat) (db' : DB)
        (t : VocabularyTerm),
        createVocabularyTerm db p now = (db', .ok t) →
        readVocabularyTerm db' t.id = some t ∧ t.term = p.term ∧
        t.definition = p.definition ∧
        t.historical_period = p.historical_period ∧
        t.pronunciation = p.pronunciation ∧
        t.example_usage = p.example_usage ∧
        t.difficulty_level = p.difficulty_level ∧ t.tags = p.tags) ∧
    (∀ (db : DB) (p : QuizLevelCreate) (now : Nat) (db' : DB)
        (l : QuizLevel),
        createQuizLevel db p now = (db', .ok l) →
        readQuizLevel db' l.id = some l ∧
        l.level_number = p.level_number ∧ l.title = p.title ∧
        l.historical_period = p.historical_period ∧
        l.description = p.description ∧
        l.unlock_requirements = p.unlock_requirements ∧
        l.reward_points = p.reward_points ∧
        l.difficulty_level = p.difficulty_level ∧
        l.is_active = p.is_active) ∧
    (∀ (db : DB) (p : QuizQuestionCreate) (now : Nat) (db' : DB)
        (q : QuizQuestion),
        createQuizQuestion db p now = (db', .ok q) →
        readQuizQuestion db' q.id = some q ∧ q.level_id = p.level_id ∧
        q.question_text = p.question_text ∧
        q.question_type = p.question_type ∧ q.options = p.options ∧
        q.correct_answer = p.correct_answer ∧
        q.explanation = p.explanation ∧ q.difficulty = p.difficulty ∧
        q.points = p.points ∧ q.media_url = p.media_url) ∧
    (∀ (db : DB) (p : QuizSessionCreate) (now : Nat) (db' : DB)
        (s : QuizSession),
        createQuizSession db p now = (db', .ok s) →
        readQuizSession db' s.id = some s ∧
        s.student_id = p.student_id ∧ s.level_id = p.level_id ∧
        s.total_questions = p.total_questions) ∧
    (∀ (db : DB) (p : StudentRewardCreate) (now : Nat) (db' : DB)
        (r : StudentReward),
        createStudentReward db p now = (db', .ok r) →
        readStudentReward db' r.id = some r ∧
        r.student_id = p.student_id ∧ r.reward_type = p.reward_type ∧
        r.title = p.title ∧ r.description = p.description ∧
        r.points_value = p.points_value ∧ r.icon_url = p.icon_url ∧
        r.source_activity = p.source_activity) ∧
    (∀ (db : DB) (p : VocabularyConnectionCreate) (now : Nat) (db' : DB)
        (c : VocabularyConnection),
        createVocabularyConnection db p now = (db', .ok c) →
        readVocabularyConnection db' c.id = some c ∧
        c.source_term_id = p.source_term_id ∧
        c.target_term_id = p.target_term_id ∧
        c.connection_type = p.connection_type ∧
        c.description = p.description ∧ c.strength = p.strength) ∧
    (∀ (db : DB) (p : StudentProgressCreate) (now : Nat) (db' : DB)
        (r : StudentProgress),
        createStudentProgress db p now = (db', .ok r) →
        readStudentProgress db' r.id = some r ∧
        r.student_id = p.student_id ∧
        r.activity_type = p.activity_type ∧
        r.activity_id = p.activity_id ∧
        r.progress_percentage = p.progress_percentage ∧
        r.completion_time = p.completion_time ∧ r.score = p.score ∧
        r.attempts_count = p.attempts_count ∧ r.notes = p.notes) := by
  refine ⟨?_, ?_, ?_, ?_, ?_, ?_, ?_, ?_⟩
  · intro db p now db' u h
    obtain ⟨hr, hg⟩ := createUser_ok_tags h
    obtain ⟨hdb, _, h3, h4, h5, h6, _, _, _, _, _⟩ := createUser_ok_shape h
    subst hdb
    exact ⟨List.find?_cons_of_pos _ (by simp), h3, h4, h5, h6, hr, hg⟩
  · intro db p now db' t h
    obtain ⟨hdb, _, h3, h4, h5, h6, h7, h8, h9, _, _, _⟩ :=
      createVocabularyTerm_ok_shape h
    subst hdb
    exact ⟨List.find?_cons_of_pos _ (by simp), h3, h4, h5, h6, h7, h8, h9⟩
  · intro db p now db' l h
    obtain ⟨hdb, _, h3, h4, h5, h6, h7, h8, h9, h10, _, _⟩ :=
      createQuizLevel_ok_shape h
    subst hdb
    exact ⟨List.find?_cons_of_pos _ (by simp), h3, h4, h5, h6, h7, h8, h9,
      h10⟩
  · intro db p now db' q h
    obtain ⟨hdb, _, h3, h4, h5, h6, h7, h8, h9, h10, h11, _, _, _⟩ :=
      createQuizQuestion_ok_shape h
    subst hdb
    exact ⟨List.find?_cons_of_pos _ (by simp), h3, h4, h5, h6, h7, h8, h9,
      h10, h11⟩
  · intro db p now db' s h
    obtain ⟨hdb, _, h3, h4, _, _, _, h8, _, _, _, _, _⟩ :=
      createQuizSession_ok_shape h
    subst hdb
    exact ⟨List.find?_cons_of_pos _ (by simp), h3, h4, h8⟩
  · intro db p now db' r h
    obtain ⟨hdb, _, h3, h4, h5, h6, h7, h8, _, h10, _, _⟩ :=
      createStudentReward_ok_shape h
    subst hdb
    exact ⟨List.find?_cons_of_pos _ (by simp), h3, h4, h5, h6, h7, h8, h10⟩
  · intro db p now db' c h
    obtain ⟨hdb, _, h3, h4, h5, h6, h7, _, _, _, _⟩ :=
      createVocabularyConnection_ok_shape h
    subst hdb
    exact ⟨List.find?_cons_of_pos _ (by simp), h3, h4, h5, h6, h7⟩
  · intro db p now db' r h
    obtain ⟨hdb, _, h3, h4, h5, h6, h7, h8, h9, _, h11, _, _, _⟩ :=
      createStudentProgress_ok_shape h
    subst hdb
    exact ⟨List.find?_cons_of_pos _ (by simp), h3, h4, h5, h6, h7, h8, h9,
      h11⟩

/-- A concrete valid create payload for `User`. -/
def aliceReq : UserCreateRequest :=
  { username := "alice", email := "alice@sch.id", full_name := "Alice",
    role := "student", grade_level := none, school_name := none }

/-- The user record created from `aliceReq` on the empty store at instant 7. -/
def aliceCreated : User := mkUser DB.empty aliceReq .student none 7

/-- The store after creating `aliceCreated`. -/
def aliceCreatedDB : DB := { DB.empty with users := [aliceCreated] }

theorem c7_witness :
    readUser aliceCreatedDB aliceCreated.id = some aliceCreated ∧
    aliceCreated.username = aliceReq.username ∧
    aliceCreated.email = aliceReq.email ∧
    aliceCreated.full_name = aliceReq.full_name ∧
    aliceCreated.school_name = aliceReq.school_name ∧
    UserRole.ofString aliceReq.role = some aliceCreated.role ∧
    parseOptTag "grade_level" GradeLevel.ofString aliceReq.grade_level =
      .ok aliceCreated.grade_level :=
  c7_read_after_write.1 DB.empty aliceReq 7 aliceCreatedDB aliceCreated rfl

/-- C8 counterexample: the `UsageAnalytics` table (lines 411-420) carries no
`created_at` column — its only instant column is named `timestamp` — so the
claim that every entity has a created_at field, including UsageAnalytics,
fails on the source. -/
theorem c8_counterexample :
    ("UsageAnalytics", usageAnalyticsColumns) ∈ srcTables ∧
    "created_at" ∉ usageAnalyticsColumns ∧
    "timestamp" ∈ usageAnalyticsColumns := by decide

/-- C8 amended: every modelled Create assigns a fresh id (distinct from the
id of every existing record of that entity) and stamps the row's creation
instant (`created_at` where the entity declares one; `start_time`,
`earned_at` and `last_accessed` for QuizSession, StudentReward and
StudentProgress); updates never change id or created_at; and every table
except QuizSession, StudentReward, StudentProgress and UsageAnalytics
declares `created_at`, while UsageAnalytics has `timestamp` instead. -/
theorem c8_fresh_id_and_created_at :
    (∀ (db : DB) (p : UserCreateRequest) (now : Nat) (db' : DB) (u : User),
        createUser db p now = (db', .ok u) →
        u.id ∉ db.users.map (·.id) ∧ u.created_at = now) ∧
    (∀ (db : DB) (p : VocabularyTermCreate) (now : Nat) (db' : DB)
        (t : VocabularyTerm),
        createVocabularyTerm db p now = (db', .ok t) →
        t.id ∉ db.vocabulary_terms.map (·.id) ∧ t.created_at = now) ∧
    (∀ (db : DB) (p : QuizLevelCreate) (now : Nat) (db' : DB)
        (l : QuizLevel),
        createQuizLevel db p now = (db', .ok l) →
        l.id ∉ db.quiz_levels.map (·.id) ∧ l.created_at = now) ∧
    (∀ (db : DB) (p : QuizQuestionCreate) (now : Nat) (db' : DB)
        (q : QuizQuestion),
        createQuizQuestion db p now = (db', .ok q) →
        q.id ∉ db.quiz_questions.map (·.id) ∧ q.created_at = now) ∧
    (∀ (db : DB) (p : QuizSessionCreate) (now : Nat) (db' : DB)
        (s : QuizSession),
        createQuizSession db p now = (db', .ok s) →
        s.id ∉ db.quiz_sessions.map (·.id) ∧ s.start_time = now) ∧
    (∀ (db : DB) (p : StudentRewardCreate) (now : Nat) (db' : DB)
        (r : StudentReward),
        createStudentReward db p now = (db', .ok r) →
        r.id ∉ db.student_rewards.map (·.id) ∧ r.earned_at = now) ∧
    (∀ (db : DB) (p : VocabularyConnectionCreate) (now : Nat) (db' : DB)
        (c : VocabularyConnection),
        createVocabularyConnection db p now = (db', .ok c) →
        c.id ∉ db.vocabulary_connections.map (·.id) ∧ c.created_at = now) ∧
    (∀ (db : DB) (p : StudentProgressCreate) (now : Nat) (db' : DB)
        (r : StudentProgress),
        createStudentProgress db p now = (db', .ok r) →
        r.id ∉ db.student_progress.map (·.id) ∧ r.last_accessed = now) ∧
    (∀ (db : DB) (i : Nat) (p : UserUpdate) (now : Nat) (db' : DB),
        updateUser db i p now = (db', .ok ()) →
        db'.users.map (·.id) = db.users.map (·.id) ∧
        db'.users.map (·.created_at) = db.users.map (·.created_at)) ∧
    (∀ tbl ∈ srcTables,
        tbl.1 ∉ ["QuizSession", "StudentReward", "StudentProgress",
          "UsageAnalytics"] → "created_at" ∈ tbl.2) ∧
    "created_at" ∉ usageAnalyticsColumns ∧
    "timestamp" ∈ usageAnalyticsColumns := by
  refine ⟨?_, ?_, ?_, ?_, ?_, ?_, ?_, ?_, ?_, by decide, by decide,
    by decide⟩
  · intro db p now db' u h
    obtain ⟨_, hid, _, _, _, _, _, hca, _, _, _⟩ := createUser_ok_shape h
    rw [hid, hca]
    exact ⟨freshId_not_mem _, rfl⟩
  · intro db p now db' t h
    obtain ⟨_, hid, _, _, _, _, _, _, _, hca, _, _⟩ :=
      createVocabularyTerm_ok_shape h
    rw [hid, hca]
    exact ⟨freshId_not_mem _, rfl⟩
  · intro db p now db' l h
    obtain ⟨_, hid, _, _, _, _, _, _, _, _, hca, _⟩ :=
      createQuizLevel_ok_shape h
    rw [hid, hca]
    exact ⟨freshId_not_mem _, rfl⟩
  · intro db p now db' q h
    obtain ⟨_, hid, _, _, _, _, _, _, _, _, _, hca, _, _⟩ :=
      createQuizQuestion_ok_shape h
    rw [hid, hca]
    exact ⟨freshId_not_mem _, rfl⟩
  · intro db p now db' s h
    obtain ⟨_, hid, _, _, hst, _, _, _, _, _, _, _, _⟩ :=
      createQuizSession_ok_shape h
    rw [hid, hst]
    exact ⟨freshId_not_mem _, rfl⟩
  · intro db p now db' r h
    obtain ⟨_, hid, _, _, _, _, _, _, hea, _, _, _⟩ :=
      createStudentReward_ok_shape h
    rw [hid, hea]
    exact ⟨freshId_not_mem _, rfl⟩
  · intro db p now db' c h
    obtain ⟨_, hid, _, _, _, _, _, hca, _, _, _⟩ :=
      createVocabularyConnection_ok_shape h
    rw [hid, hca]
    exact ⟨freshId_not_mem _, rfl⟩
  · intro db p now db' r h
    obtain ⟨_, hid, _, _, _, _, _, _, _, hla, _, _, _, _⟩ :=
      createStudentProgress_ok_shape h
    rw [hid, hla]
    exact ⟨freshId_not_mem _, rfl⟩
  · intro db i p now db' h
    unfold updateUser at h
    repeat' split at h
    all_goals simp only [Prod.mk.injEq] at h
    all_goals try exact Except.noConfusion h.2
    obtain ⟨h1, _⟩ := h
    obtain rfl := h1
    constructor
    · rw [List.map_map]
      apply List.map_congr_left
      intro u _
      by_cases hu : u.id = i <;> simp [hu, applyUserUpdate]
    · rw [List.map_map]
      apply List.map_congr_left
      intro u _
      by_cases hu : u.id = i <;> simp [hu, applyUserUpdate]

theorem c8_witness :
    (aliceCreated.id ∉ DB.empty.users.map (·.id) ∧
      aliceCreated.created_at = 7) ∧
    ((updateUser aliceDB 1 ⟨none, none, none, none⟩ 9).1.users.map (·.id) =
        aliceDB.users.map (·.id) ∧
      (updateUser aliceDB 1 ⟨none, none, none, none⟩ 9).1.users.map
          (·.created_at) =
        aliceDB.users.map (·.created_at)) :=
  ⟨c8_fresh_id_and_created_at.1 DB.empty aliceReq 7 aliceCreatedDB
      aliceCreated rfl,
    c8_fresh_id_and_created_at.2.2.2.2.2.2.2.2.1 aliceDB 1
      ⟨none, none, none, none⟩ 9 _ rfl⟩

/-- C9: the repository's two schema variants are divergent designs for the
same domain: the variant in `src/app/models.py` declares a `QuizSession`
table and declares `HistoricalPeriod` only as an enum (no table of that
name, no `QuizAttempt` table), while the second variant — modelled from the
spec, see `variantTables` — declares a `QuizAttempt` table and a
`HistoricalPeriod` table; so across the source both `QuizAttempt` and
`QuizSession` occur as distinct table designs, and `HistoricalPeriod`
occurs both as a table and as an enum tag. -/
theorem c9_two_schema_variants :
    ("QuizSession", quizSessionColumns) ∈ srcTables ∧
    (∀ tbl ∈ srcTables, tbl.1 ≠ "QuizAttempt") ∧
    "QuizAttempt" ∈ variantTables ∧
    "HistoricalPeriod" ∈ srcEnums ∧
    (∀ tbl ∈ srcTables, tbl.1 ≠ "HistoricalPeriod") ∧
    "HistoricalPeriod" ∈ variantTables := by decide

/-- C10: an update submitted through the `UserUpdate` transfer shape can
modify only full_name, grade_level, school_name and is_active: applying it
leaves username, email and role (and id and created_at) of the stored user
unchanged, and a successful `updateUser` leaves the username, email and
role of every stored user unchanged. -/
theorem c10_user_update_frame :
    (∀ (u : User) (p : UserUpdate),
        (applyUserUpdate u p).username = u.username ∧
        (applyUserUpdate u p).email = u.email ∧
        (applyUserUpdate u p).role = u.role ∧
        (applyUserUpdate u p).id = u.id ∧
        (applyUserUpdate u p).created_at = u.created_at) ∧
    (∀ (db : DB) (i : Nat) (p : UserUpdate) (now : Nat) (db' : DB),
        updateUser db i p now = (db', .ok ()) →
        db'.users.map (·.username) = db.users.map (·.username) ∧
        db'.users.map (·.email) = db.users.map (·.email) ∧
        db'.users.map (·.role) = db.users.map (·.role)) := by
  constructor
  · intro u p
    refine ⟨?_, ?_, ?_, ?_, ?_⟩ <;> simp [applyUserUpdate]
  · intro db i p now db' h
    unfold updateUser at h
    repeat' split at h
    all_goals simp only [Prod.mk.injEq] at h
    all_goals try exact Except.noConfusion h.2
    obtain ⟨h1, _⟩ := h
    obtain rfl := h1
    refine ⟨?_, ?_, ?_⟩
    all_goals
      rw [List.map_map]
      apply List.map_congr_left
      intro u _
      by_cases hu : u.id = i <;> simp [hu, applyUserUpdate]

theorem c10_witness :
    ((applyUserUpdate aliceUser
        ⟨some "Alicia", none, none, some false⟩).username =
      aliceUser.username ∧
      (applyUserUpdate aliceUser
          ⟨some "Alicia", none, none, some false⟩).email =
        aliceUser.email ∧
      (applyUserUpdate aliceUser
          ⟨some "Alicia", none, none, some false⟩).role =
        aliceUser.role ∧
      (applyUserUpdate aliceUser
          ⟨some "Alicia", none, none, some false⟩).id =
        aliceUser.id ∧
      (applyUserUpdate aliceUser
          ⟨some "Alicia", none, none, some false⟩).created_at =
        aliceUser.created_at) ∧
    ((updateUser aliceDB 1 ⟨some "Alicia", none, none, some false⟩
          9).1.users.map (·.username) =
        aliceDB.users.map (·.username) ∧
      (updateUser aliceDB 1 ⟨some "Alicia", none, none, some false⟩
          9).1.users.map (·.email) =
        aliceDB.users.map (·.email) ∧
      (updateUser aliceDB 1 ⟨some "Alicia", none, none, some false⟩
          9).1.users.map (·.role) =
        aliceDB.users.map (·.role)) :=
  ⟨c10_user_update_frame.1 aliceUser ⟨some "Alicia", none, none, some false⟩,
    c10_user_update_frame.2 aliceDB 1
      ⟨some "Alicia", none, none, some false⟩ 9 _ rfl⟩

end DinoDuniaKuno
